import Mathlib

/-!
# Appointment bot: availability polling and subscriber notification

A shallow embedding of `main.go`.

Modelling decisions.

* The `AppointmentChecker` record keeps the four fields the handlers read and
  write: the two subscriber maps, `lastAvailableSlot` and `wasAvailable`.
  Both maps only ever store the value `true`, so a map is its key set
  (`Finset Int`); `m[k] = true` is insertion, `delete(m, k)` is erasure and
  the lookup `m[k]` is membership.
* `bot.Send` is the only output.  Every handler returns the multiset of
  messages it sent: Go ranges over a map in an unspecified order, so a
  broadcast has no order to record.
* The HTTP exchange of `checkEndpoint` is an input (`HttpOutcome`), and so is
  the clock reading `time.Now()` (one instant for each call of
  `checkEndpoint`).  Instants are integers (nanoseconds, as in Go).
* `time.Parse(time.RFC3339, _)` belongs to the Go standard library; it is the
  parameter `parse`, `none` standing for a parse error.
* In `step` and `run` a handler runs to completion before the next one
  starts: the ticker goroutine and the update loop are interleaved at the
  granularity of one tick or one update.
* `lastAvailableSlot` is shared by the two goroutines without a lock, and
  `checkAvailability` reads it back after its probes.  What the other
  goroutine's probes write while a check runs is modelled by
  `checkAvailabilityOverlapped`, which is `checkAvailability` with those
  probes placed between its steps.
-/

namespace AppointmentBot

/-! ## Data model -/

/-- The `dateTime`/`timeZone` pair of the JSON payloads. -/
structure TimeZoneDateTime where
  DateTime : String
  TimeZone : String
  deriving DecidableEq, Repr

/-- One availability item of a probe response. -/
structure AvailabilityItem where
  Status : String
  StartDateTime : TimeZoneDateTime
  EndDateTime : TimeZoneDateTime
  AvailableCount : Int
  deriving DecidableEq, Repr

/-- One element of `staffAvailabilityResponse`. -/
structure StaffAvailability where
  StaffId : String
  AvailabilityItems : List AvailabilityItem
  deriving DecidableEq, Repr

/-- The decoded probe response. -/
structure AvailabilityResponse where
  StaffAvailabilityResponse : List StaffAvailability
  deriving DecidableEq, Repr

/-- The result of a combined availability check. -/
structure AvailabilityResult where
  Available : Bool
  AvailableSlot : Option AvailabilityItem
  deriving DecidableEq, Repr

/-- The errors `checkEndpoint` returns. -/
inductive ProbeError where
  | transport
  | badStatus (statusCode : Nat)
  | decode
  deriving DecidableEq, Repr

/-- The errors `checkAvailability` returns: which endpoint failed, and how. -/
inductive CheckError where
  | first (err : ProbeError)
  | second (err : ProbeError)
  deriving DecidableEq, Repr

/-- What `client.Do` and the JSON decoder give `checkEndpoint`: a transport
fault, or a status code with the decoded body (`none` when decoding fails). -/
inductive HttpOutcome where
  | transportError
  | response (statusCode : Nat) (body : Option AvailabilityResponse)
  deriving DecidableEq, Repr

/-- The environment of one call of `checkEndpoint`: the HTTP exchange and the
clock reading. -/
structure Probe where
  http : HttpOutcome
  now : Int
  deriving DecidableEq, Repr

/-- The texts the bot sends. -/
inductive MessageText where
  | welcome
  | updatesEnabled
  | updatesDisabled
  | checking
  | checkFailed (err : CheckError)
  | availableWithSlot (slot : AvailabilityItem)
  | availableNoSlot
  | noneAvailable
  | noLongerAvailable
  | statusText (autoCheck : Bool)
  deriving DecidableEq, Repr

/-- One call of `bot.Send`. -/
structure Sent where
  chatID : Int
  text : MessageText
  deriving DecidableEq, Repr

/-- The mutable fields of the checker. -/
structure AppointmentChecker where
  users : Finset Int
  autoCheckUsers : Finset Int
  lastAvailableSlot : Option AvailabilityItem
  wasAvailable : Bool
  deriving DecidableEq

/-- The checker as `NewAppointmentChecker` builds it: empty maps, nil slot,
`wasAvailable` false. -/
def NewAppointmentChecker : AppointmentChecker :=
  { users := ∅, autoCheckUsers := ∅, lastAvailableSlot := none, wasAvailable := false }

/-- An inbound message: chat id, text, and what `IsCommand()` and `Command()`
say about it. -/
structure Message where
  chatID : Int
  text : String
  isCommand : Bool
  command : String
  deriving DecidableEq, Repr

/-- An inbound update; `message` is nil for updates that carry no message. -/
structure Update where
  message : Option Message
  deriving DecidableEq, Repr

/-! ## Prober -/

/-- The inner loop of `checkEndpoint` over the items of one staff entry. -/
def scanItems (parse : String → Option Int) (now : Int) :
    List AvailabilityItem → Option AvailabilityItem
  | [] => none
  | item :: rest =>
    if item.Status = "BOOKINGSAVAILABILITYSTATUS_AVAILABLE" ∨
        item.Status = "BOOKINGSAVAILABILITYSTATUS_SLOTS_AVAILABLE" then
      if item.AvailableCount > 0 then
        match parse item.StartDateTime.DateTime with
        | none => scanItems parse now rest
        | some startTime =>
          if startTime > now then some item
          else scanItems parse now rest
      else scanItems parse now rest
    else scanItems parse now rest

/-- The outer loop of `checkEndpoint` over the staff entries. -/
def scanStaff (parse : String → Option Int) (now : Int) :
    List StaffAvailability → Option AvailabilityItem
  | [] => none
  | staff :: rest =>
    match scanItems parse now staff.AvailabilityItems with
    | some item => some item
    | none => scanStaff parse now rest

/-- One probe: fails on a transport fault, a status other than 200 or an
undecodable body; otherwise scans the response, records the first hit in
`lastAvailableSlot` and returns whether there was one. -/
def checkEndpoint (parse : String → Option Int) (ac : AppointmentChecker) (p : Probe) :
    AppointmentChecker × Except ProbeError Bool :=
  match p.http with
  | .transportError => (ac, .error .transport)
  | .response statusCode body =>
    if statusCode ≠ 200 then (ac, .error (.badStatus statusCode))
    else
      match body with
      | none => (ac, .error .decode)
      | some response =>
        match scanStaff parse p.now response.StaffAvailabilityResponse with
        | some item => ({ ac with lastAvailableSlot := some item }, .ok true)
        | none => (ac, .ok false)

/-- The combined check: first endpoint, then second; the first error aborts.
This is the check with nothing running beside it; `checkAvailabilityOverlapped`
is the same code with the other goroutine's writes in between. -/
def checkAvailability (parse : String → Option Int) (ac : AppointmentChecker)
    (p1 p2 : Probe) : AppointmentChecker × Except CheckError AvailabilityResult :=
  match checkEndpoint parse ac p1 with
  | (ac1, .error err) => (ac1, .error (.first err))
  | (ac1, .ok available1) =>
    match checkEndpoint parse ac1 p2 with
    | (ac2, .error err) => (ac2, .error (.second err))
    | (ac2, .ok available2) =>
      (ac2, .ok { Available := available1 || available2,
                  AvailableSlot := ac2.lastAvailableSlot })

/-! ## Notifier -/

/-- The four shapes of the availability message. -/
def formatAvailabilityMessage (result : AvailabilityResult) (isManualCheck : Bool) :
    MessageText :=
  if result.Available then
    match result.AvailableSlot with
    | some slot => .availableWithSlot slot
    | none => .availableNoSlot
  else if isManualCheck then .noneAvailable
  else .noLongerAvailable

/-- One `for chatID := range m { bot.Send(NewMessage(chatID, text)) }`. -/
def sendAll (m : Finset Int) (text : MessageText) : Multiset Sent :=
  m.val.map (fun chatID => { chatID := chatID, text := text })

/-- The messages `notifyUsers` sends (it changes no field). -/
def notifyUsers (ac : AppointmentChecker) (result : AvailabilityResult)
    (isAutoCheck : Bool) : Multiset Sent :=
  (if result.Available ≠ ac.wasAvailable then
      sendAll ac.users (formatAvailabilityMessage result false)
    else 0) +
  (if isAutoCheck then
      sendAll ac.autoCheckUsers (formatAvailabilityMessage result true)
    else 0)

/-! ## Reconciler: the two ticker branches of `runBot` -/

/-- The `checkTicker` branch. -/
def checkTick (parse : String → Option Int) (ac : AppointmentChecker) (p1 p2 : Probe) :
    AppointmentChecker × Multiset Sent :=
  match checkAvailability parse ac p1 p2 with
  | (ac1, .error _) => (ac1, 0)
  | (ac1, .ok result) =>
    if result.Available ≠ ac1.wasAvailable then
      ({ ac1 with wasAvailable := result.Available }, notifyUsers ac1 result false)
    else (ac1, 0)

/-- The `autoCheckTicker` branch. -/
def autoCheckTick (parse : String → Option Int) (ac : AppointmentChecker) (p1 p2 : Probe) :
    AppointmentChecker × Multiset Sent :=
  match checkAvailability parse ac p1 p2 with
  | (ac1, .error _) => (ac1, 0)
  | (ac1, .ok result) => (ac1, notifyUsers ac1 result true)

/-! ## Command handler -/

/-- The command string `handleCommand` switches on. -/
def commandOf (m : Message) : String :=
  if m.isCommand then m.command
  else if m.text = "🔍 Check Availability" then "check"
  else if m.text = "📊 Status" then "status"
  else if m.text = "⏰ Enable Status Updates" then "autostart"
  else if m.text = "⏳ Disable Status Updates" then "autostop"
  else "help"

/-- The handler of one inbound update. -/
def handleCommand (parse : String → Option Int) (ac : AppointmentChecker) (update : Update)
    (p1 p2 : Probe) : AppointmentChecker × Multiset Sent :=
  match update.message with
  | none => (ac, 0)
  | some m =>
    let chatID := m.chatID
    let ac0 := { ac with users := insert chatID ac.users }
    let command := commandOf m
    if command = "start" ∨ command = "help" then
      (ac0, {⟨chatID, .welcome⟩})
    else if command = "autostart" then
      ({ ac0 with autoCheckUsers := insert chatID ac0.autoCheckUsers },
        {⟨chatID, .updatesEnabled⟩})
    else if command = "autostop" then
      ({ ac0 with autoCheckUsers := ac0.autoCheckUsers.erase chatID },
        {⟨chatID, .updatesDisabled⟩})
    else if command = "check" then
      match checkAvailability parse ac0 p1 p2 with
      | (ac1, .error err) => (ac1, {⟨chatID, .checking⟩, ⟨chatID, .checkFailed err⟩})
      | (ac1, .ok result) =>
        (ac1, {⟨chatID, .checking⟩, ⟨chatID, formatAvailabilityMessage result true⟩})
    else if command = "status" then
      (ac0, {⟨chatID, .statusText (decide (chatID ∈ ac0.autoCheckUsers))⟩})
    else (ac0, 0)

/-! ## The bot as a transition system -/

/-- What can happen to a running bot. -/
inductive Event where
  | checkTick (p1 p2 : Probe)
  | autoCheckTick (p1 p2 : Probe)
  | update (u : Update) (p1 p2 : Probe)

/-- One event, handled to completion. -/
def step (parse : String → Option Int) (ac : AppointmentChecker) :
    Event → AppointmentChecker × Multiset Sent
  | .checkTick p1 p2 => checkTick parse ac p1 p2
  | .autoCheckTick p1 p2 => autoCheckTick parse ac p1 p2
  | .update u p1 p2 => handleCommand parse ac u p1 p2

/-- The state after a sequence of events. -/
def run (parse : String → Option Int) (ac : AppointmentChecker) : List Event → AppointmentChecker
  | [] => ac
  | e :: rest => run parse (step parse ac e).1 rest

/-! ## Overlapping checks -/

/-- The calls of `checkEndpoint` the other goroutine makes on the shared
checker, in the order of their writes. -/
def overlap (parse : String → Option Int) (ac : AppointmentChecker) :
    List Probe → AppointmentChecker
  | [] => ac
  | q :: rest => overlap parse (checkEndpoint parse ac q).1 rest

/-- The combined check with the other goroutine running beside it: the probes
in `between` write after the first endpoint's write and before the second's,
those in `after` write after the second endpoint's write and before
`ac.lastAvailableSlot` is read into the result.  Writes that come before the
first endpoint's write are part of the checker the check starts from. -/
def checkAvailabilityOverlapped (parse : String → Option Int) (ac : AppointmentChecker)
    (p1 : Probe) (between : List Probe) (p2 : Probe) (after : List Probe) :
    AppointmentChecker × Except CheckError AvailabilityResult :=
  match checkEndpoint parse ac p1 with
  | (ac1, .error err) => (ac1, .error (.first err))
  | (ac1, .ok available1) =>
    match checkEndpoint parse (overlap parse ac1 between) p2 with
    | (ac2, .error err) => (ac2, .error (.second err))
    | (ac2, .ok available2) =>
      (overlap parse ac2 after,
        .ok { Available := available1 || available2,
              AvailableSlot := (overlap parse ac2 after).lastAvailableSlot })

/-! ## Specification-side notions -/

/-- Eligibility of a candidate as the specification words it: one of the two
available status tags, a positive count, and a start instant strictly after
the current instant. -/
def Eligible (parse : String → Option Int) (now : Int) (item : AvailabilityItem) : Prop :=
  (item.Status = "BOOKINGSAVAILABILITYSTATUS_AVAILABLE" ∨
    item.Status = "BOOKINGSAVAILABILITYSTATUS_SLOTS_AVAILABLE") ∧
  0 < item.AvailableCount ∧
  ∃ start, parse item.StartDateTime.DateTime = some start ∧ now < start

/-- The decision procedure for `Eligible`. -/
def eligible (parse : String → Option Int) (now : Int) (item : AvailabilityItem) : Bool :=
  (decide (item.Status = "BOOKINGSAVAILABILITYSTATUS_AVAILABLE") ||
    decide (item.Status = "BOOKINGSAVAILABILITYSTATUS_SLOTS_AVAILABLE")) &&
  decide (0 < item.AvailableCount) &&
  (match parse item.StartDateTime.DateTime with
    | some start => decide (now < start)
    | none => false)

/-- The items of a response in scan order: staff entries in order, items in
order within each. -/
def scanOrder (response : AvailabilityResponse) : List AvailabilityItem :=
  (response.StaffAvailabilityResponse.map (fun staff => staff.AvailabilityItems)).flatten

/-- The first eligible item of a response in scan order. -/
def firstEligible (parse : String → Option Int) (now : Int) (response : AvailabilityResponse) :
    Option AvailabilityItem :=
  (scanOrder response).find? (eligible parse now)

/-- A probe whose exchange succeeds: status 200 and a body that decodes. -/
def okProbe (response : AvailabilityResponse) (now : Int) : Probe :=
  { http := .response 200 (some response), now := now }

/-- The boolean (or error) a probe yields; it does not depend on the checker. -/
def probeResult (parse : String → Option Int) (p : Probe) : Except ProbeError Bool :=
  (checkEndpoint parse NewAppointmentChecker p).2

/-- The item a probe records, if any; it does not depend on the checker. -/
def probeSlot (parse : String → Option Int) (p : Probe) : Option AvailabilityItem :=
  (checkEndpoint parse NewAppointmentChecker p).1.lastAvailableSlot

/-- The item most recently recorded by a sequence of probes, if any. -/
def lastRecorded (parse : String → Option Int) : List Probe → Option AvailabilityItem
  | [] => none
  | q :: rest => (lastRecorded parse rest).or (probeSlot parse q)

/-- The outcome of a check tick as a pair of per-probe booleans, `none` for a
failed combined check (the second probe is only consulted when the first
succeeds). -/
def tickOutcome (parse : String → Option Int) (t : Probe × Probe) : Option (Bool × Bool) :=
  match probeResult parse t.1 with
  | .error _ => none
  | .ok b1 =>
    match probeResult parse t.2 with
    | .error _ => none
    | .ok b2 => some (b1, b2)

/-- The OR of the per-probe booleans of the last successful outcome of a
sequence, `init` when there is none. -/
def lastSuccessfulOr (init : Bool) (outcomes : List (Option (Bool × Bool))) : Bool :=
  match (outcomes.filterMap id).getLast? with
  | some (b1, b2) => b1 || b2
  | none => init

/-- A sequence of check ticks as events. -/
def checkTicks (ticks : List (Probe × Probe)) : List Event :=
  ticks.map (fun t => Event.checkTick t.1 t.2)

/-- The log of a run of check ticks: for each tick the boolean of its combined
check (`none` when it failed) and the messages the tick sent. -/
def checkTickLog (parse : String → Option Int) (ac : AppointmentChecker) :
    List (Probe × Probe) → List (Option Bool × Multiset Sent)
  | [] => []
  | t :: rest =>
    ((match (checkAvailability parse ac t.1 t.2).2 with
        | .ok result => some result.Available
        | .error _ => none),
      (checkTick parse ac t.1 t.2).2) ::
      checkTickLog parse (checkTick parse ac t.1 t.2).1 rest

/-- The chat ids that receive at least one of the messages. -/
def recipients (sent : Multiset Sent) : Finset Int :=
  (sent.map (fun s => s.chatID)).toFinset

/-- An update carrying the given command from the given chat. -/
def commandUpdate (chatID : Int) (command : String) : Update :=
  { message := some { chatID := chatID, text := "", isCommand := true, command := command } }

/-! ## Sample data -/

/-- A clock reading: 2030-01-01T00:00:00Z in nanoseconds. -/
def sampleNow : Int := 1893456000000000000

/-- One hour in nanoseconds (`time.Hour`). -/
def hour : Int := 3600000000000

/-- A stand-in for the RFC 3339 parser that knows three instants. -/
def sampleParse (s : String) : Option Int :=
  if s = "2030-01-01T01:00:00Z" then some (sampleNow + hour)
  else if s = "2030-01-01T02:00:00Z" then some (sampleNow + 2 * hour)
  else if s = "2029-12-31T23:00:00Z" then some (sampleNow - hour)
  else none

/-- An item with the given status, start and count. -/
def sampleItem (status start : String) (count : Int) : AvailabilityItem :=
  { Status := status,
    StartDateTime := { DateTime := start, TimeZone := "UTC" },
    EndDateTime := { DateTime := "", TimeZone := "UTC" },
    AvailableCount := count }

/-- The response with one staff entry holding the given items. -/
def oneStaff (items : List AvailabilityItem) : AvailabilityResponse :=
  { StaffAvailabilityResponse := [{ StaffId := "staff", AvailabilityItems := items }] }

/-- An eligible item one hour ahead of `sampleNow`, count 1. -/
def slotA : AvailabilityItem :=
  sampleItem "BOOKINGSAVAILABILITYSTATUS_AVAILABLE" "2030-01-01T01:00:00Z" 1

/-- An eligible item two hours ahead of `sampleNow`, count 2. -/
def slotB : AvailabilityItem :=
  sampleItem "BOOKINGSAVAILABILITYSTATUS_SLOTS_AVAILABLE" "2030-01-01T02:00:00Z" 2

/-- A probe that finds `slotA`. -/
def probeA : Probe := okProbe (oneStaff [slotA]) sampleNow

/-- A probe that finds `slotB`. -/
def probeB : Probe := okProbe (oneStaff [slotB]) sampleNow

/-- A probe that succeeds and finds nothing. -/
def probeEmpty : Probe := okProbe (oneStaff []) sampleNow

/-- A probe answered with HTTP 500. -/
def probe500 : Probe := { http := .response 500 none, now := sampleNow }

/-- A checker with two known subscribers, one of them a digest subscriber. -/
def sampleChecker : AppointmentChecker :=
  { users := {1, 2}, autoCheckUsers := {1}, lastAvailableSlot := none, wasAvailable := false }

/-! ## Lemmas on the prober -/

theorem eligible_iff (parse : String → Option Int) (now : Int) (item : AvailabilityItem) :
    eligible parse now item = true ↔ Eligible parse now item := by
  unfold eligible Eligible
  cases h : parse item.StartDateTime.DateTime with
  | none => simp
  | some start => simp [and_assoc]

theorem scanItems_eq_find (parse : String → Option Int) (now : Int)
    (items : List AvailabilityItem) :
    scanItems parse now items = items.find? (eligible parse now) := by
  induction items with
  | nil => rfl
  | cons item rest ih =>
    unfold scanItems
    rw [List.find?_cons, ih]
    unfold eligible
    cases hp : parse item.StartDateTime.DateTime with
    | none => simp
    | some start =>
      by_cases hs : item.Status = "BOOKINGSAVAILABILITYSTATUS_AVAILABLE" ∨
          item.Status = "BOOKINGSAVAILABILITYSTATUS_SLOTS_AVAILABLE"
      · by_cases hc : item.AvailableCount > 0
        · by_cases ht : start > now
          · have hs' := hs
            simp only [hs, hc, ht, if_true]
            rcases hs' with h | h <;> simp [h, hc, ht]
          · have hs' := hs
            simp only [hs, hc, ht, if_true, if_false]
            have : ¬ now < start := ht
            rcases hs' with h | h <;> simp [h, this]
        · have : ¬ 0 < item.AvailableCount := hc
          simp [hc, this]
      · have h1 : ¬ item.Status = "BOOKINGSAVAILABILITYSTATUS_AVAILABLE" := fun h => hs (Or.inl h)
        have h2 : ¬ item.Status = "BOOKINGSAVAILABILITYSTATUS_SLOTS_AVAILABLE" :=
          fun h => hs (Or.inr h)
        simp [hs, h1, h2]

theorem scanStaff_eq_find (parse : String → Option Int) (now : Int)
    (staffs : List StaffAvailability) :
    scanStaff parse now staffs =
      ((staffs.map (fun staff => staff.AvailabilityItems)).flatten).find? (eligible parse now) := by
  induction staffs with
  | nil => rfl
  | cons staff rest ih =>
    unfold scanStaff
    rw [List.map_cons, List.flatten_cons, List.find?_append, ← ih, scanItems_eq_find]
    cases List.find? (eligible parse now) staff.AvailabilityItems <;> rfl

theorem checkEndpoint_snd (parse : String → Option Int) (ac : AppointmentChecker) (p : Probe) :
    (checkEndpoint parse ac p).2 = probeResult parse p := by
  unfold probeResult checkEndpoint
  cases p.http with
  | transportError => rfl
  | response statusCode body =>
    by_cases hc : statusCode = 200
    · cases body with
      | none => simp [hc]
      | some response =>
        simp only [hc, ne_eq, not_true_eq_false, if_false]
        cases scanStaff parse p.now response.StaffAvailabilityResponse <;> rfl
    · simp [hc]

theorem checkEndpoint_fst (parse : String → Option Int) (ac : AppointmentChecker) (p : Probe) :
    (checkEndpoint parse ac p).1 =
      { ac with lastAvailableSlot := (probeSlot parse p).or ac.lastAvailableSlot } := by
  unfold probeSlot checkEndpoint
  cases p.http with
  | transportError => rfl
  | response statusCode body =>
    by_cases hc : statusCode = 200
    · cases body with
      | none => simp [hc, NewAppointmentChecker]
      | some response =>
        simp only [hc, ne_eq, not_true_eq_false, if_false]
        cases scanStaff parse p.now response.StaffAvailabilityResponse <;> rfl
    · simp [hc, NewAppointmentChecker]

theorem probeResult_okProbe (parse : String → Option Int) (response : AvailabilityResponse)
    (now : Int) :
    probeResult parse (okProbe response now) = .ok (firstEligible parse now response).isSome := by
  unfold probeResult checkEndpoint okProbe firstEligible scanOrder
  simp only [ne_eq, not_true_eq_false, if_false]
  rw [scanStaff_eq_find]
  cases List.find? (eligible parse now)
    (response.StaffAvailabilityResponse.map (fun staff => staff.AvailabilityItems)).flatten <;> rfl

theorem probeSlot_okProbe (parse : String → Option Int) (response : AvailabilityResponse)
    (now : Int) :
    probeSlot parse (okProbe response now) = firstEligible parse now response := by
  unfold probeSlot checkEndpoint okProbe firstEligible scanOrder
  simp only [ne_eq, not_true_eq_false, if_false]
  rw [scanStaff_eq_find]
  cases List.find? (eligible parse now)
    (response.StaffAvailabilityResponse.map (fun staff => staff.AvailabilityItems)).flatten <;> rfl

theorem probeSlot_isSome_of_ok (parse : String → Option Int) (p : Probe) (b : Bool)
    (h : probeResult parse p = .ok b) : (probeSlot parse p).isSome = b := by
  unfold probeResult at h
  unfold probeSlot
  unfold checkEndpoint at h ⊢
  cases hh : p.http with
  | transportError => simp [hh] at h
  | response statusCode body =>
    rw [hh] at h
    by_cases hc : statusCode = 200
    · cases body with
      | none => simp [hc] at h
      | some response =>
        simp only [hc, ne_eq, not_true_eq_false, if_false] at h ⊢
        cases hs : scanStaff parse p.now response.StaffAvailabilityResponse with
        | none =>
          rw [hs] at h
          simp only [Except.ok.injEq] at h
          simp [← h, NewAppointmentChecker]
        | some item =>
          rw [hs] at h
          simp only [Except.ok.injEq] at h
          simp [← h]
    · simp [hc] at h

theorem probeSlot_eq_none_of_error (parse : String → Option Int) (p : Probe) (err : ProbeError)
    (h : probeResult parse p = .error err) : probeSlot parse p = none := by
  unfold probeResult at h
  unfold probeSlot
  unfold checkEndpoint at h ⊢
  cases hh : p.http with
  | transportError => rfl
  | response statusCode body =>
    rw [hh] at h
    by_cases hc : statusCode = 200
    · cases body with
      | none => simp [hc, NewAppointmentChecker]
      | some response =>
        simp only [hc, ne_eq, not_true_eq_false, if_false] at h ⊢
        cases hs : scanStaff parse p.now response.StaffAvailabilityResponse with
        | none => rw [hs] at h; simp at h
        | some item => rw [hs] at h; simp at h
    · simp [hc, NewAppointmentChecker]

/-- The combined check in terms of the per-probe results. -/
theorem checkAvailability_eq (parse : String → Option Int) (ac : AppointmentChecker)
    (p1 p2 : Probe) :
    checkAvailability parse ac p1 p2 =
      match probeResult parse p1 with
      | .error err => (ac, .error (.first err))
      | .ok b1 =>
        match probeResult parse p2 with
        | .error err =>
          ({ ac with lastAvailableSlot := (probeSlot parse p1).or ac.lastAvailableSlot },
            .error (.second err))
        | .ok b2 =>
          ({ ac with lastAvailableSlot :=
              (probeSlot parse p2).or ((probeSlot parse p1).or ac.lastAvailableSlot) },
            .ok { Available := b1 || b2,
                  AvailableSlot :=
                    (probeSlot parse p2).or ((probeSlot parse p1).or ac.lastAvailableSlot) }) := by
  unfold checkAvailability
  have e1 : checkEndpoint parse ac p1 =
      ({ ac with lastAvailableSlot := (probeSlot parse p1).or ac.lastAvailableSlot },
        probeResult parse p1) := by
    rw [← checkEndpoint_fst, ← checkEndpoint_snd parse ac p1]
  rw [e1]
  cases h1 : probeResult parse p1 with
  | error err =>
    simp only [probeSlot_eq_none_of_error parse p1 err h1, Option.none_or]
  | ok b1 =>
    simp only
    have e2 : checkEndpoint parse
        { ac with lastAvailableSlot := (probeSlot parse p1).or ac.lastAvailableSlot } p2 =
        ({ ac with lastAvailableSlot :=
            (probeSlot parse p2).or ((probeSlot parse p1).or ac.lastAvailableSlot) },
          probeResult parse p2) := by
      rw [← checkEndpoint_snd parse
        { ac with lastAvailableSlot := (probeSlot parse p1).or ac.lastAvailableSlot } p2]
      rw [Prod.ext_iff]
      exact ⟨checkEndpoint_fst parse _ p2, rfl⟩
    rw [e2]
    cases h2 : probeResult parse p2 with
    | error err =>
      simp only [probeSlot_eq_none_of_error parse p2 err h2, Option.none_or]
    | ok b2 => rfl

theorem mem_scanOrder (response : AvailabilityResponse) (item : AvailabilityItem) :
    item ∈ scanOrder response ↔
      ∃ staff ∈ response.StaffAvailabilityResponse, item ∈ staff.AvailabilityItems := by
  unfold scanOrder
  simp only [List.mem_flatten, List.mem_map]
  constructor
  · rintro ⟨l, ⟨staff, hs, rfl⟩, hi⟩
    exact ⟨staff, hs, hi⟩
  · rintro ⟨staff, hs, hi⟩
    exact ⟨_, ⟨staff, hs, rfl⟩, hi⟩

theorem checkEndpoint_okProbe (parse : String → Option Int) (ac : AppointmentChecker)
    (response : AvailabilityResponse) (now : Int) :
    checkEndpoint parse ac (okProbe response now) =
      ({ ac with lastAvailableSlot := (firstEligible parse now response).or ac.lastAvailableSlot },
        .ok (firstEligible parse now response).isSome) := by
  rw [Prod.ext_iff]
  refine ⟨?_, ?_⟩
  · rw [checkEndpoint_fst, probeSlot_okProbe]
  · rw [checkEndpoint_snd, probeResult_okProbe]

theorem okProbe_of_ok (parse : String → Option Int) (p : Probe) (b : Bool)
    (h : probeResult parse p = .ok b) : ∃ response, p = okProbe response p.now := by
  unfold probeResult checkEndpoint at h
  obtain ⟨http, now⟩ := p
  cases http with
  | transportError => simp at h
  | response statusCode body =>
    by_cases hc : statusCode = 200
    · cases body with
      | none => simp [hc] at h
      | some response => exact ⟨response, by simp [okProbe, hc]⟩
    · simp [hc] at h

theorem checkTick_of_error (parse : String → Option Int) (ac : AppointmentChecker)
    (p1 p2 : Probe) (err : CheckError)
    (h : (checkAvailability parse ac p1 p2).2 = .error err) :
    checkTick parse ac p1 p2 = ((checkAvailability parse ac p1 p2).1, 0) := by
  unfold checkTick
  cases hc : checkAvailability parse ac p1 p2 with
  | mk ac1 res =>
    rw [hc] at h
    simp only at h
    subst h
    rfl

theorem checkAvailability_frame (parse : String → Option Int) (ac : AppointmentChecker)
    (p1 p2 : Probe) :
    (checkAvailability parse ac p1 p2).1.users = ac.users ∧
    (checkAvailability parse ac p1 p2).1.autoCheckUsers = ac.autoCheckUsers ∧
    (checkAvailability parse ac p1 p2).1.wasAvailable = ac.wasAvailable := by
  rw [checkAvailability_eq]
  cases probeResult parse p1 with
  | error e1 => exact ⟨rfl, rfl, rfl⟩
  | ok b1 => cases probeResult parse p2 <;> exact ⟨rfl, rfl, rfl⟩

theorem checkAvailability_slot_ne_none (parse : String → Option Int) (ac : AppointmentChecker)
    (p1 p2 : Probe) (h : ac.lastAvailableSlot ≠ none) :
    (checkAvailability parse ac p1 p2).1.lastAvailableSlot ≠ none := by
  rw [checkAvailability_eq]
  cases hs : ac.lastAvailableSlot with
  | none => exact absurd hs h
  | some slot =>
    cases probeResult parse p1 with
    | error e1 => simp [hs]
    | ok b1 =>
      cases probeResult parse p2 <;>
        cases probeSlot parse p1 <;> cases probeSlot parse p2 <;> simp [hs]

theorem checkAvailability_available_slot (parse : String → Option Int)
    (ac : AppointmentChecker) (p1 p2 : Probe) (result : AvailabilityResult)
    (h : (checkAvailability parse ac p1 p2).2 = .ok result) (ha : result.Available = true) :
    (checkAvailability parse ac p1 p2).1.lastAvailableSlot ≠ none := by
  rw [checkAvailability_eq] at h ⊢
  cases h1 : probeResult parse p1 with
  | error e1 => rw [h1] at h; simp at h
  | ok b1 =>
    cases h2 : probeResult parse p2 with
    | error e2 => rw [h1, h2] at h; simp at h
    | ok b2 =>
      rw [h1, h2] at h
      simp only [Except.ok.injEq] at h
      subst h
      simp only [Bool.or_eq_true] at ha
      have hb1 := probeSlot_isSome_of_ok parse p1 b1 h1
      have hb2 := probeSlot_isSome_of_ok parse p2 b2 h2
      simp only
      cases hs2 : probeSlot parse p2 with
      | some item => simp
      | none =>
        cases hs1 : probeSlot parse p1 with
        | some item => simp
        | none =>
          rw [hs1] at hb1
          rw [hs2] at hb2
          simp only [Option.isSome_none] at hb1 hb2
          rw [← hb1, ← hb2] at ha
          simp at ha

theorem sent_checkTick (parse : String → Option Int) (ac : AppointmentChecker)
    (p1 p2 : Probe) (result : AvailabilityResult)
    (h : (checkAvailability parse ac p1 p2).2 = .ok result) :
    checkTick parse ac p1 p2 =
      if result.Available ≠ ac.wasAvailable then
        ({ (checkAvailability parse ac p1 p2).1 with wasAvailable := result.Available },
          sendAll ac.users (formatAvailabilityMessage result false))
      else ((checkAvailability parse ac p1 p2).1, 0) := by
  obtain ⟨hu, -, hw⟩ := checkAvailability_frame parse ac p1 p2
  unfold checkTick
  cases hc : checkAvailability parse ac p1 p2 with
  | mk ac1 res =>
    rw [hc] at h hu hw
    simp only at h hu hw
    subst h
    simp only [hw]
    by_cases hd : result.Available = ac.wasAvailable
    · simp [hd]
    · simp [hd, notifyUsers, hw, hu]

theorem sent_autoCheckTick (parse : String → Option Int) (ac : AppointmentChecker)
    (p1 p2 : Probe) (result : AvailabilityResult)
    (h : (checkAvailability parse ac p1 p2).2 = .ok result) :
    autoCheckTick parse ac p1 p2 =
      ((checkAvailability parse ac p1 p2).1,
        (if result.Available ≠ ac.wasAvailable then
            sendAll ac.users (formatAvailabilityMessage result false)
          else 0) +
        sendAll ac.autoCheckUsers (formatAvailabilityMessage result true)) := by
  obtain ⟨hu, ha, hw⟩ := checkAvailability_frame parse ac p1 p2
  unfold autoCheckTick
  cases hc : checkAvailability parse ac p1 p2 with
  | mk ac1 res =>
    rw [hc] at h hu ha hw
    simp only at h hu ha hw
    subst h
    simp [notifyUsers, hw, hu, ha]

theorem mem_sendAll (m : Finset Int) (text : MessageText) (s : Sent) :
    s ∈ sendAll m text ↔ s.chatID ∈ m ∧ s.text = text := by
  unfold sendAll
  simp only [Multiset.mem_map, Finset.mem_val]
  constructor
  · rintro ⟨id, hid, rfl⟩
    exact ⟨hid, rfl⟩
  · rintro ⟨hid, ht⟩
    refine ⟨s.chatID, hid, ?_⟩
    cases s
    simp only at ht
    rw [ht]

theorem mem_recipients (sent : Multiset Sent) (id : Int) :
    id ∈ recipients sent ↔ ∃ s ∈ sent, s.chatID = id := by
  unfold recipients
  simp

theorem recipients_sendAll (m : Finset Int) (text : MessageText) :
    recipients (sendAll m text) = m := by
  ext id
  rw [mem_recipients]
  constructor
  · rintro ⟨s, hs, rfl⟩
    exact ((mem_sendAll m text s).1 hs).1
  · intro hid
    exact ⟨⟨id, text⟩, (mem_sendAll m text _).2 ⟨hid, rfl⟩, rfl⟩

theorem recipients_add (a b : Multiset Sent) :
    recipients (a + b) = recipients a ∪ recipients b := by
  ext id
  simp only [mem_recipients, Finset.mem_union, Multiset.mem_add]
  constructor
  · rintro ⟨s, hs | hs, rfl⟩
    · exact Or.inl ⟨s, hs, rfl⟩
    · exact Or.inr ⟨s, hs, rfl⟩
  · rintro (⟨s, hs, rfl⟩ | ⟨s, hs, rfl⟩)
    · exact ⟨s, Or.inl hs, rfl⟩
    · exact ⟨s, Or.inr hs, rfl⟩

theorem recipients_zero : recipients (0 : Multiset Sent) = ∅ := rfl

theorem checkTickLog_quiet (parse : String → Option Int) (b : Bool) :
    ∀ (ticks : List (Probe × Probe)) (ac : AppointmentChecker), ac.wasAvailable = b →
      (∀ e ∈ checkTickLog parse ac ticks, e.1 = some b) →
      ∀ e ∈ checkTickLog parse ac ticks, e.2 = 0 := by
  intro ticks
  induction ticks with
  | nil => intro ac _ _ e he; simp [checkTickLog] at he
  | cons t rest ih =>
    intro ac hw hall e he
    unfold checkTickLog at hall he
    have hhead := hall _ (List.mem_cons_self _ _)
    simp only at hhead
    cases hres : (checkAvailability parse ac t.1 t.2).2 with
    | error err => rw [hres] at hhead; simp at hhead
    | ok result =>
      rw [hres] at hhead
      simp only [Option.some.injEq] at hhead
      have hstep := sent_checkTick parse ac t.1 t.2 result hres
      have hsame : ¬ result.Available ≠ ac.wasAvailable := by
        rw [hhead, hw]; simp
      rw [if_neg hsame] at hstep
      rcases List.mem_cons.1 he with rfl | hin
      · simp only [hstep]
      · rw [hstep] at hin hall
        have hw' : (checkAvailability parse ac t.1 t.2).1.wasAvailable = b := by
          rw [(checkAvailability_frame parse ac t.1 t.2).2.2, hw]
        exact ih _ hw' (fun e' he' => hall e' (List.mem_cons_of_mem _ he')) e hin

/-- The checker after an update that carries a message, field by field. -/
theorem handleCommand_state (parse : String → Option Int) (ac : AppointmentChecker)
    (m : Message) (p1 p2 : Probe) :
    (handleCommand parse ac ⟨some m⟩ p1 p2).1.users = insert m.chatID ac.users ∧
    (handleCommand parse ac ⟨some m⟩ p1 p2).1.autoCheckUsers =
      (if commandOf m = "autostart" then insert m.chatID ac.autoCheckUsers
        else if commandOf m = "autostop" then ac.autoCheckUsers.erase m.chatID
        else ac.autoCheckUsers) ∧
    (handleCommand parse ac ⟨some m⟩ p1 p2).1.wasAvailable = ac.wasAvailable ∧
    (handleCommand parse ac ⟨some m⟩ p1 p2).1.lastAvailableSlot =
      (if commandOf m = "check" then
        (checkAvailability parse { ac with users := insert m.chatID ac.users }
          p1 p2).1.lastAvailableSlot
        else ac.lastAvailableSlot) ∧
    ∀ s ∈ (handleCommand parse ac ⟨some m⟩ p1 p2).2, s.chatID = m.chatID := by
  unfold handleCommand
  simp only
  by_cases h1 : commandOf m = "start" ∨ commandOf m = "help"
  · rw [if_pos h1]
    have ha : commandOf m ≠ "autostart" := by rcases h1 with h | h <;> simp [h]
    have hb : commandOf m ≠ "autostop" := by rcases h1 with h | h <;> simp [h]
    have hc : commandOf m ≠ "check" := by rcases h1 with h | h <;> simp [h]
    simp [ha, hb, hc]
  · rw [if_neg h1]
    by_cases h2 : commandOf m = "autostart"
    · simp [h2]
    · rw [if_neg h2]
      by_cases h3 : commandOf m = "autostop"
      · simp [h3]
      · rw [if_neg h3]
        by_cases h4 : commandOf m = "check"
        · rw [if_pos h4]
          obtain ⟨hu, ha, hw⟩ :=
            checkAvailability_frame parse { ac with users := insert m.chatID ac.users } p1 p2
          cases hc : checkAvailability parse { ac with users := insert m.chatID ac.users }
              p1 p2 with
          | mk ac1 res =>
            rw [hc] at hu ha hw
            simp only at hu ha hw
            cases res with
            | error err => simp [h4, hu, ha, hw]
            | ok result => simp [h4, hu, ha, hw]
        · rw [if_neg h4]
          by_cases h5 : commandOf m = "status"
          · simp [h5]
          · simp [h2, h3, h4, h5]

/-- Every event keeps the digest set inside the known set. -/
theorem step_subset (parse : String → Option Int) (ac : AppointmentChecker) (e : Event)
    (h : ac.autoCheckUsers ⊆ ac.users) :
    (step parse ac e).1.autoCheckUsers ⊆ (step parse ac e).1.users := by
  cases e with
  | checkTick p1 p2 =>
    obtain ⟨hu, ha, -⟩ := checkAvailability_frame parse ac p1 p2
    simp only [step]
    cases hres : (checkAvailability parse ac p1 p2).2 with
    | error err =>
      rw [checkTick_of_error parse ac p1 p2 err hres]
      simp only [hu, ha]; exact h
    | ok result =>
      rw [sent_checkTick parse ac p1 p2 result hres]
      by_cases hd : result.Available ≠ ac.wasAvailable
      · rw [if_pos hd]; simp only [hu, ha]; exact h
      · rw [if_neg hd]; simp only [hu, ha]; exact h
  | autoCheckTick p1 p2 =>
    obtain ⟨hu, ha, -⟩ := checkAvailability_frame parse ac p1 p2
    simp only [step]
    have : (autoCheckTick parse ac p1 p2).1 = (checkAvailability parse ac p1 p2).1 := by
      unfold autoCheckTick
      cases hc : checkAvailability parse ac p1 p2 with
      | mk ac1 res => cases res <;> rfl
    rw [this, hu, ha]; exact h
  | update u p1 p2 =>
    simp only [step]
    obtain ⟨message⟩ := u
    cases message with
    | none => exact h
    | some m =>
      obtain ⟨hu, ha, -, -, -⟩ := handleCommand_state parse ac m p1 p2
      rw [hu, ha]
      intro id hid
      by_cases h2 : commandOf m = "autostart"
      · rw [if_pos h2] at hid
        rcases Finset.mem_insert.1 hid with rfl | hin
        · exact Finset.mem_insert_self _ _
        · exact Finset.mem_insert_of_mem (h hin)
      · rw [if_neg h2] at hid
        by_cases h3 : commandOf m = "autostop"
        · rw [if_pos h3] at hid
          exact Finset.mem_insert_of_mem (h (Finset.mem_of_mem_erase hid))
        · rw [if_neg h3] at hid
          exact Finset.mem_insert_of_mem (h hid)

theorem lastSuccessfulOr_cons (init : Bool) (o : Option (Bool × Bool))
    (os : List (Option (Bool × Bool))) :
    lastSuccessfulOr init (o :: os) =
      lastSuccessfulOr (match o with
        | some (b1, b2) => b1 || b2
        | none => init) os := by
  unfold lastSuccessfulOr
  cases o with
  | none => simp
  | some b =>
    obtain ⟨b1, b2⟩ := b
    simp only [List.filterMap_cons, id_eq, List.getLast?_cons]
    cases (List.filterMap id os).getLast? <;> rfl

theorem tickOutcome_eq_none_iff (parse : String → Option Int) (ac : AppointmentChecker)
    (p1 p2 : Probe) :
    tickOutcome parse (p1, p2) = none ↔
      ∃ err, (checkAvailability parse ac p1 p2).2 = .error err := by
  rw [checkAvailability_eq]
  unfold tickOutcome
  simp only
  cases probeResult parse p1 with
  | error e1 => simp
  | ok b1 => cases probeResult parse p2 <;> simp

theorem tickOutcome_eq_some (parse : String → Option Int) (ac : AppointmentChecker)
    (p1 p2 : Probe) (b1 b2 : Bool) (h : tickOutcome parse (p1, p2) = some (b1, b2)) :
    ∃ slot, (checkAvailability parse ac p1 p2).2 = .ok ⟨b1 || b2, slot⟩ := by
  rw [checkAvailability_eq]
  unfold tickOutcome at h
  simp only at h
  cases h1 : probeResult parse p1 with
  | error e1 => rw [h1] at h; simp at h
  | ok c1 =>
    cases h2 : probeResult parse p2 with
    | error e2 => rw [h1, h2] at h; simp at h
    | ok c2 =>
      rw [h1, h2] at h
      simp only [Option.some.injEq, Prod.mk.injEq] at h
      obtain ⟨rfl, rfl⟩ := h
      exact ⟨_, rfl⟩

theorem checkTick_wasAvailable (parse : String → Option Int) (ac : AppointmentChecker)
    (p1 p2 : Probe) :
    (checkTick parse ac p1 p2).1.wasAvailable =
      match tickOutcome parse (p1, p2) with
      | some (b1, b2) => b1 || b2
      | none => ac.wasAvailable := by
  cases ho : tickOutcome parse (p1, p2) with
  | none =>
    obtain ⟨err, herr⟩ := (tickOutcome_eq_none_iff parse ac p1 p2).1 ho
    rw [checkTick_of_error parse ac p1 p2 err herr]
    exact (checkAvailability_frame parse ac p1 p2).2.2
  | some b =>
    obtain ⟨b1, b2⟩ := b
    obtain ⟨slot, hres⟩ := tickOutcome_eq_some parse ac p1 p2 b1 b2 ho
    rw [sent_checkTick parse ac p1 p2 _ hres]
    by_cases hd : (b1 || b2) ≠ ac.wasAvailable
    · rw [if_pos hd]
    · rw [if_neg hd]
      simp only
      rw [(checkAvailability_frame parse ac p1 p2).2.2]
      exact (not_not.1 hd).symm

theorem run_checkTicks_wasAvailable (parse : String → Option Int) :
    ∀ (ticks : List (Probe × Probe)) (ac : AppointmentChecker),
      (run parse ac (checkTicks ticks)).wasAvailable =
        lastSuccessfulOr ac.wasAvailable (ticks.map (tickOutcome parse)) := by
  intro ticks
  induction ticks with
  | nil => intro ac; rfl
  | cons t rest ih =>
    intro ac
    obtain ⟨p1, p2⟩ := t
    have hrun : run parse ac (checkTicks ((p1, p2) :: rest)) =
        run parse (checkTick parse ac p1 p2).1 (checkTicks rest) := rfl
    rw [hrun, ih, List.map_cons, lastSuccessfulOr_cons, checkTick_wasAvailable]

/-- No event empties a non-empty `lastAvailableSlot`. -/
theorem step_slot_ne_none (parse : String → Option Int) (ac : AppointmentChecker) (e : Event)
    (h : ac.lastAvailableSlot ≠ none) : (step parse ac e).1.lastAvailableSlot ≠ none := by
  cases e with
  | checkTick p1 p2 =>
    simp only [step]
    have hs := checkAvailability_slot_ne_none parse ac p1 p2 h
    cases hres : (checkAvailability parse ac p1 p2).2 with
    | error err => rw [checkTick_of_error parse ac p1 p2 err hres]; exact hs
    | ok result =>
      rw [sent_checkTick parse ac p1 p2 result hres]
      by_cases hd : result.Available ≠ ac.wasAvailable
      · rw [if_pos hd]; exact hs
      · rw [if_neg hd]; exact hs
  | autoCheckTick p1 p2 =>
    simp only [step]
    have : (autoCheckTick parse ac p1 p2).1 = (checkAvailability parse ac p1 p2).1 := by
      unfold autoCheckTick
      cases hc : checkAvailability parse ac p1 p2 with
      | mk ac1 res => cases res <;> rfl
    rw [this]
    exact checkAvailability_slot_ne_none parse ac p1 p2 h
  | update u p1 p2 =>
    simp only [step]
    obtain ⟨message⟩ := u
    cases message with
    | none => exact h
    | some m =>
      rw [(handleCommand_state parse ac m p1 p2).2.2.2.1]
      by_cases hc : commandOf m = "check"
      · rw [if_pos hc]
        exact checkAvailability_slot_ne_none parse _ p1 p2 h
      · rw [if_neg hc]; exact h

/-- Every event keeps: `wasAvailable` true implies a recorded slot. -/
theorem step_available_slot (parse : String → Option Int) (ac : AppointmentChecker)
    (e : Event) (h : ac.wasAvailable = true → ac.lastAvailableSlot ≠ none) :
    (step parse ac e).1.wasAvailable = true → (step parse ac e).1.lastAvailableSlot ≠ none := by
  cases e with
  | checkTick p1 p2 =>
    simp only [step]
    cases hres : (checkAvailability parse ac p1 p2).2 with
    | error err =>
      rw [checkTick_of_error parse ac p1 p2 err hres]
      simp only
      rw [(checkAvailability_frame parse ac p1 p2).2.2]
      intro hw
      exact checkAvailability_slot_ne_none parse ac p1 p2 (h hw)
    | ok result =>
      rw [sent_checkTick parse ac p1 p2 result hres]
      by_cases hd : result.Available ≠ ac.wasAvailable
      · rw [if_pos hd]
        simp only
        intro hw
        exact checkAvailability_available_slot parse ac p1 p2 result hres hw
      · rw [if_neg hd]
        simp only
        rw [(checkAvailability_frame parse ac p1 p2).2.2]
        intro hw
        exact checkAvailability_slot_ne_none parse ac p1 p2 (h hw)
  | autoCheckTick p1 p2 =>
    intro hw
    refine step_slot_ne_none parse ac _ (h ?_)
    simp only [step] at hw
    have : (autoCheckTick parse ac p1 p2).1 = (checkAvailability parse ac p1 p2).1 := by
      unfold autoCheckTick
      cases hc : checkAvailability parse ac p1 p2 with
      | mk ac1 res => cases res <;> rfl
    rw [this, (checkAvailability_frame parse ac p1 p2).2.2] at hw
    exact hw
  | update u p1 p2 =>
    intro hw
    refine step_slot_ne_none parse ac _ (h ?_)
    simp only [step] at hw
    obtain ⟨message⟩ := u
    cases message with
    | none => exact hw
    | some m =>
      rw [(handleCommand_state parse ac m p1 p2).2.2.1] at hw
      exact hw

theorem run_available_slot (parse : String → Option Int) :
    ∀ (events : List Event) (ac : AppointmentChecker),
      (ac.wasAvailable = true → ac.lastAvailableSlot ≠ none) →
      (run parse ac events).wasAvailable = true →
      (run parse ac events).lastAvailableSlot ≠ none := by
  intro events
  induction events with
  | nil => intro ac h; exact h
  | cons e rest ih =>
    intro ac h
    exact ih _ (step_available_slot parse ac e h)

theorem overlap_eq (parse : String → Option Int) :
    ∀ (probes : List Probe) (ac : AppointmentChecker),
      overlap parse ac probes =
        { ac with lastAvailableSlot := (lastRecorded parse probes).or ac.lastAvailableSlot } := by
  intro probes
  induction probes with
  | nil => intro ac; rfl
  | cons q rest ih =>
    intro ac
    unfold overlap lastRecorded
    rw [ih, checkEndpoint_fst, Option.or_assoc]

theorem lastRecorded_eq_none (parse : String → Option Int) :
    ∀ probes : List Probe, (∀ q ∈ probes, probeSlot parse q = none) →
      lastRecorded parse probes = none := by
  intro probes
  induction probes with
  | nil => intro _; rfl
  | cons q rest ih =>
    intro h
    unfold lastRecorded
    rw [ih (fun q' hq' => h q' (List.mem_cons_of_mem _ hq')), h q (List.mem_cons_self _ _)]
    rfl

/-- The overlapped combined check in terms of the per-probe results. -/
theorem checkAvailabilityOverlapped_eq (parse : String → Option Int)
    (ac : AppointmentChecker) (p1 : Probe) (between : List Probe) (p2 : Probe)
    (after : List Probe) :
    checkAvailabilityOverlapped parse ac p1 between p2 after =
      match probeResult parse p1 with
      | .error err => (ac, .error (.first err))
      | .ok b1 =>
        match probeResult parse p2 with
        | .error err =>
          ({ ac with lastAvailableSlot :=
              (lastRecorded parse between).or ((probeSlot parse p1).or ac.lastAvailableSlot) },
            .error (.second err))
        | .ok b2 =>
          ({ ac with lastAvailableSlot :=
              (lastRecorded parse after).or ((probeSlot parse p2).or
                ((lastRecorded parse between).or
                  ((probeSlot parse p1).or ac.lastAvailableSlot))) },
            .ok { Available := b1 || b2,
                  AvailableSlot :=
                    (lastRecorded parse after).or ((probeSlot parse p2).or
                      ((lastRecorded parse between).or
                        ((probeSlot parse p1).or ac.lastAvailableSlot))) }) := by
  unfold checkAvailabilityOverlapped
  have e1 : checkEndpoint parse ac p1 =
      ({ ac with lastAvailableSlot := (probeSlot parse p1).or ac.lastAvailableSlot },
        probeResult parse p1) := by
    rw [← checkEndpoint_fst, ← checkEndpoint_snd parse ac p1]
  rw [e1]
  cases h1 : probeResult parse p1 with
  | error err =>
    simp only [probeSlot_eq_none_of_error parse p1 err h1, Option.none_or]
  | ok b1 =>
    simp only
    have e2 : checkEndpoint parse
        (overlap parse
          { ac with lastAvailableSlot := (probeSlot parse p1).or ac.lastAvailableSlot }
          between) p2 =
        ({ ac with lastAvailableSlot :=
            (probeSlot parse p2).or ((lastRecorded parse between).or
              ((probeSlot parse p1).or ac.lastAvailableSlot)) },
          probeResult parse p2) := by
      rw [Prod.ext_iff]
      refine ⟨?_, checkEndpoint_snd parse _ p2⟩
      rw [checkEndpoint_fst, overlap_eq]
    rw [e2]
    cases h2 : probeResult parse p2 with
    | error err =>
      simp only [probeSlot_eq_none_of_error parse p2 err h2, Option.none_or]
    | ok b2 =>
      simp only
      rw [overlap_eq]

/-! ## The claims -/

/-- C6: on a decoded response, `checkEndpoint` returns (it never fails), and it
returns true exactly when some item of some staff entry has one of the two
available status tags, a positive count and a start instant strictly after the
current instant.  When it returns true the recorded slot is the first such item
in scan order; when it returns false the checker is unchanged.  An AVAILABLE
item with count 0 is rejected, one with count 3 and a past start is rejected,
one with count 1 starting one hour ahead is accepted and recorded. -/
theorem C6_checkEndpoint_scan (parse : String → Option Int) (ac : AppointmentChecker)
    (response : AvailabilityResponse) (now : Int) :
    (∃ b, (checkEndpoint parse ac (okProbe response now)).2 = .ok b) ∧
    ((checkEndpoint parse ac (okProbe response now)).2 = .ok true ↔
      ∃ staff ∈ response.StaffAvailabilityResponse, ∃ item ∈ staff.AvailabilityItems,
        (item.Status = "BOOKINGSAVAILABILITYSTATUS_AVAILABLE" ∨
          item.Status = "BOOKINGSAVAILABILITYSTATUS_SLOTS_AVAILABLE") ∧
        0 < item.AvailableCount ∧
        ∃ start, parse item.StartDateTime.DateTime = some start ∧ now < start) ∧
    ((checkEndpoint parse ac (okProbe response now)).2 = .ok true →
      ∃ before item after,
        scanOrder response = before ++ item :: after ∧
        (∀ x ∈ before, ¬ Eligible parse now x) ∧
        Eligible parse now item ∧
        (checkEndpoint parse ac (okProbe response now)).1 =
          { ac with lastAvailableSlot := some item }) ∧
    ((checkEndpoint parse ac (okProbe response now)).2 = .ok false →
      (checkEndpoint parse ac (okProbe response now)).1 = ac) ∧
    (∀ item : AvailabilityItem,
      item.Status = "BOOKINGSAVAILABILITYSTATUS_AVAILABLE" → item.AvailableCount = 0 →
      checkEndpoint parse ac (okProbe (oneStaff [item]) now) = (ac, .ok false)) ∧
    (∀ (item : AvailabilityItem) (start : Int),
      item.Status = "BOOKINGSAVAILABILITYSTATUS_AVAILABLE" → item.AvailableCount = 3 →
      parse item.StartDateTime.DateTime = some start → start < now →
      checkEndpoint parse ac (okProbe (oneStaff [item]) now) = (ac, .ok false)) ∧
    (∀ item : AvailabilityItem,
      item.Status = "BOOKINGSAVAILABILITYSTATUS_AVAILABLE" → item.AvailableCount = 1 →
      parse item.StartDateTime.DateTime = some (now + hour) →
      checkEndpoint parse ac (okProbe (oneStaff [item]) now) =
        ({ ac with lastAvailableSlot := some item }, .ok true)) := by
  refine ⟨?_, ?_, ?_, ?_, ?_, ?_, ?_⟩
  · exact ⟨_, congrArg Prod.snd (checkEndpoint_okProbe parse ac response now)⟩
  · rw [checkEndpoint_okProbe]
    simp only [Except.ok.injEq]
    unfold firstEligible
    rw [List.find?_isSome]
    constructor
    · rintro ⟨item, hmem, helig⟩
      obtain ⟨staff, hs, hi⟩ := (mem_scanOrder response item).1 hmem
      exact ⟨staff, hs, item, hi, (eligible_iff parse now item).1 helig⟩
    · rintro ⟨staff, hs, item, hi, helig⟩
      exact ⟨item, (mem_scanOrder response item).2 ⟨staff, hs, hi⟩,
        (eligible_iff parse now item).2 helig⟩
  · rw [checkEndpoint_okProbe]
    simp only [Except.ok.injEq]
    intro h
    cases hf : firstEligible parse now response with
    | none => rw [hf] at h; simp at h
    | some item =>
      unfold firstEligible at hf
      obtain ⟨helig, before, after, hsplit, hbefore⟩ := List.find?_eq_some.1 hf
      refine ⟨before, item, after, hsplit, ?_, (eligible_iff parse now item).1 helig, rfl⟩
      intro x hx hel
      have := hbefore x hx
      rw [(eligible_iff parse now x).2 hel] at this
      simp at this
  · rw [checkEndpoint_okProbe]
    simp only [Except.ok.injEq]
    intro h
    cases hf : firstEligible parse now response with
    | none => rfl
    | some item => rw [hf] at h; simp at h
  · intro item hs hc
    rw [checkEndpoint_okProbe]
    have : firstEligible parse now (oneStaff [item]) = none := by
      simp [firstEligible, scanOrder, oneStaff, eligible, hc]
    rw [this]; rfl
  · intro item start hs hc hp hlt
    rw [checkEndpoint_okProbe]
    have hn : ¬ now < start := by omega
    have : firstEligible parse now (oneStaff [item]) = none := by
      simp [firstEligible, scanOrder, oneStaff, eligible, hp, hn]
    rw [this]; rfl
  · intro item hs hc hp
    rw [checkEndpoint_okProbe]
    have : firstEligible parse now (oneStaff [item]) = some item := by
      simp [firstEligible, scanOrder, oneStaff, eligible, hp, hs, hc, hour]
    rw [this]; rfl

/-- C6 at concrete inputs: a response whose first item has count 0 and whose
second is `slotA`; and the three single-item cases of the claim. -/
theorem C6_checkEndpoint_scan_witness :
    (∃ before item after,
      scanOrder (oneStaff
        [sampleItem "BOOKINGSAVAILABILITYSTATUS_AVAILABLE" "2030-01-01T01:00:00Z" 0, slotA]) =
        before ++ item :: after ∧
      (∀ x ∈ before, ¬ Eligible sampleParse sampleNow x) ∧
      Eligible sampleParse sampleNow item ∧
      (checkEndpoint sampleParse sampleChecker (okProbe (oneStaff
        [sampleItem "BOOKINGSAVAILABILITYSTATUS_AVAILABLE" "2030-01-01T01:00:00Z" 0, slotA])
        sampleNow)).1 = { sampleChecker with lastAvailableSlot := some item }) ∧
    (checkEndpoint sampleParse sampleChecker probeEmpty).1 = sampleChecker ∧
    checkEndpoint sampleParse sampleChecker (okProbe (oneStaff
      [sampleItem "BOOKINGSAVAILABILITYSTATUS_AVAILABLE" "2030-01-01T01:00:00Z" 0]) sampleNow) =
      (sampleChecker, .ok false) ∧
    checkEndpoint sampleParse sampleChecker (okProbe (oneStaff
      [sampleItem "BOOKINGSAVAILABILITYSTATUS_AVAILABLE" "2029-12-31T23:00:00Z" 3]) sampleNow) =
      (sampleChecker, .ok false) ∧
    checkEndpoint sampleParse sampleChecker (okProbe (oneStaff [slotA]) sampleNow) =
      ({ sampleChecker with lastAvailableSlot := some slotA }, .ok true) :=
  ⟨(C6_checkEndpoint_scan sampleParse sampleChecker (oneStaff
      [sampleItem "BOOKINGSAVAILABILITYSTATUS_AVAILABLE" "2030-01-01T01:00:00Z" 0, slotA])
      sampleNow).2.2.1 rfl,
    (C6_checkEndpoint_scan sampleParse sampleChecker (oneStaff []) sampleNow).2.2.2.1 rfl,
    (C6_checkEndpoint_scan sampleParse sampleChecker (oneStaff []) sampleNow).2.2.2.2.1
      (sampleItem "BOOKINGSAVAILABILITYSTATUS_AVAILABLE" "2030-01-01T01:00:00Z" 0)
      (by decide) (by decide),
    (C6_checkEndpoint_scan sampleParse sampleChecker (oneStaff []) sampleNow).2.2.2.2.2.1
      (sampleItem "BOOKINGSAVAILABILITYSTATUS_AVAILABLE" "2029-12-31T23:00:00Z" 3)
      (sampleNow - hour) (by decide) (by decide) (by decide) (by decide),
    (C6_checkEndpoint_scan sampleParse sampleChecker (oneStaff []) sampleNow).2.2.2.2.2.2
      slotA (by decide) (by decide) (by decide)⟩

/-- C8, as stated, fails.  When both specs return an eligible item the
combined check reports the second spec's item, although the first spec's item
comes first in scan order.  And when a probe of the other goroutine records
`slotB` before the check reads the slot back, the check reports `slotB`
although its own two responses hold `slotA` only. -/
theorem C8_counterexample :
    (checkAvailability sampleParse NewAppointmentChecker probeA probeB).2 =
      .ok { Available := true, AvailableSlot := some slotB } ∧
    (scanOrder (oneStaff [slotA]) ++ scanOrder (oneStaff [slotB])).find?
      (eligible sampleParse sampleNow) = some slotA ∧
    (checkAvailabilityOverlapped sampleParse NewAppointmentChecker
      probeA [] probeEmpty [probeB]).2 =
      .ok { Available := true, AvailableSlot := some slotB } ∧
    (scanOrder (oneStaff [slotA]) ++ scanOrder (oneStaff [])).find?
      (eligible sampleParse sampleNow) = some slotA ∧
    slotA ≠ slotB :=
  ⟨rfl, by decide, rfl, by decide, by decide⟩

/-- C8, amended: a successful combined check with `Available = true`, run
while the other goroutine's probes `between` and `after` write to the shared
checker, has both of its probes answered with a decoded response, and the slot
it reports is non-empty and is the `lastAvailableSlot` stored when it returns:
the item most recently recorded among the first response, `between`, the
second response and `after`, in that order.  When no overlapping probe
records a slot, and so for a check that nothing overlaps, it is the first
eligible item in scan order of the second response when that response has
one, and otherwise the first eligible item in scan order of the first
response.  In that case, when the first response has no eligible item and the
second holds one with count 2 at a future time, the result is available with
that item as its slot.  With no overlapping probes the overlapped check is
`checkAvailability`. -/
theorem C8_reported_slot (parse : String → Option Int) (ac : AppointmentChecker)
    (p1 p2 : Probe) (between after : List Probe) :
    checkAvailabilityOverlapped parse ac p1 [] p2 [] = checkAvailability parse ac p1 p2 ∧
    (∀ result,
      (checkAvailabilityOverlapped parse ac p1 between p2 after).2 = .ok result →
      result.Available = true →
      ∃ r1 r2, p1 = okProbe r1 p1.now ∧ p2 = okProbe r2 p2.now ∧
        result.AvailableSlot ≠ none ∧
        (checkAvailabilityOverlapped parse ac p1 between p2 after).1.lastAvailableSlot =
          result.AvailableSlot ∧
        result.AvailableSlot =
          (lastRecorded parse after).or ((firstEligible parse p2.now r2).or
            ((lastRecorded parse between).or (firstEligible parse p1.now r1))) ∧
        ((∀ q ∈ between ++ after, probeSlot parse q = none) →
          result.AvailableSlot =
            (match firstEligible parse p2.now r2 with
              | some item => some item
              | none => firstEligible parse p1.now r1))) ∧
    (∀ (r1 : AvailabilityResponse) (item : AvailabilityItem) (start : Int),
      p1 = okProbe r1 p1.now → firstEligible parse p1.now r1 = none →
      p2 = okProbe (oneStaff [item]) p2.now →
      (item.Status = "BOOKINGSAVAILABILITYSTATUS_AVAILABLE" ∨
        item.Status = "BOOKINGSAVAILABILITYSTATUS_SLOTS_AVAILABLE") →
      item.AvailableCount = 2 →
      parse item.StartDateTime.DateTime = some start → p2.now < start →
      (∀ q ∈ between ++ after, probeSlot parse q = none) →
      checkAvailabilityOverlapped parse ac p1 between p2 after =
        ({ ac with lastAvailableSlot := some item },
          .ok { Available := true, AvailableSlot := some item })) := by
  refine ⟨?_, ?_, ?_⟩
  · rw [checkAvailabilityOverlapped_eq, checkAvailability_eq]
    cases probeResult parse p1 with
    | error e1 => rfl
    | ok b1 =>
      cases probeResult parse p2 with
      | error e2 => simp only [lastRecorded, Option.none_or]
      | ok b2 => simp only [lastRecorded, Option.none_or]
  · intro result hres havail
    rw [checkAvailabilityOverlapped_eq] at hres ⊢
    cases h1 : probeResult parse p1 with
    | error e1 => simp [h1] at hres
    | ok b1 =>
      cases h2 : probeResult parse p2 with
      | error e2 => simp [h1, h2] at hres
      | ok b2 =>
        rw [h1, h2] at hres
        simp only [Except.ok.injEq] at hres
        obtain ⟨r1, hp1⟩ := okProbe_of_ok parse p1 b1 h1
        obtain ⟨r2, hp2⟩ := okProbe_of_ok parse p2 b2 h2
        have hs1 : probeSlot parse p1 = firstEligible parse p1.now r1 := by
          conv_lhs => rw [hp1]
          exact probeSlot_okProbe parse r1 p1.now
        have hs2 : probeSlot parse p2 = firstEligible parse p2.now r2 := by
          conv_lhs => rw [hp2]
          exact probeSlot_okProbe parse r2 p2.now
        have hb1 := probeSlot_isSome_of_ok parse p1 b1 h1
        have hb2 := probeSlot_isSome_of_ok parse p2 b2 h2
        rw [hs1] at hb1
        rw [hs2] at hb2
        rw [hs1, hs2] at hres
        subst hres
        simp only [hs1, hs2] at havail ⊢
        have hfound : firstEligible parse p1.now r1 ≠ none ∨
            firstEligible parse p2.now r2 ≠ none := by
          rw [← hb1, ← hb2] at havail
          cases hf1 : firstEligible parse p1.now r1 with
          | some item => exact Or.inl (by simp)
          | none =>
            cases hf2 : firstEligible parse p2.now r2 with
            | some item => exact Or.inr (by simp)
            | none => rw [hf1, hf2] at havail; simp at havail
        refine ⟨r1, r2, hp1, hp2, ?_, trivial, ?_, ?_⟩
        · cases hf1 : firstEligible parse p1.now r1 <;>
            cases hf2 : firstEligible parse p2.now r2 <;>
            cases lastRecorded parse between <;>
            cases lastRecorded parse after <;>
            simp [hf1, hf2] at hfound ⊢
        · cases hf1 : firstEligible parse p1.now r1 <;>
            cases hf2 : firstEligible parse p2.now r2 <;>
            cases lastRecorded parse between <;>
            cases lastRecorded parse after <;>
            simp [hf1, hf2] at hfound ⊢
        · intro hquiet
          have hbetween : lastRecorded parse between = none :=
            lastRecorded_eq_none parse between
              (fun q hq => hquiet q (List.mem_append.2 (Or.inl hq)))
          have hafter : lastRecorded parse after = none :=
            lastRecorded_eq_none parse after
              (fun q hq => hquiet q (List.mem_append.2 (Or.inr hq)))
          rw [hbetween, hafter]
          cases hf1 : firstEligible parse p1.now r1 <;>
            cases hf2 : firstEligible parse p2.now r2 <;>
            simp [hf1, hf2] at hfound ⊢
  · intro r1 item start hp1 hnone hp2 hstatus hcount hparse hfuture hquiet
    have hf2 : firstEligible parse p2.now (oneStaff [item]) = some item := by
      rcases hstatus with hs | hs <;>
        simp [firstEligible, scanOrder, oneStaff, eligible, hparse, hs, hcount, hfuture]
    have hbetween : lastRecorded parse between = none :=
      lastRecorded_eq_none parse between
        (fun q hq => hquiet q (List.mem_append.2 (Or.inl hq)))
    have hafter : lastRecorded parse after = none :=
      lastRecorded_eq_none parse after
        (fun q hq => hquiet q (List.mem_append.2 (Or.inr hq)))
    rw [checkAvailabilityOverlapped_eq]
    have h1 : probeResult parse p1 = .ok false := by
      conv_lhs => rw [hp1]
      rw [probeResult_okProbe, hnone]; rfl
    have h2 : probeResult parse p2 = .ok true := by
      conv_lhs => rw [hp2]
      rw [probeResult_okProbe, hf2]; rfl
    have hs2 : probeSlot parse p2 = some item := by
      conv_lhs => rw [hp2]
      rw [probeSlot_okProbe, hf2]
    rw [h1, h2]
    simp only [hs2, hbetween, hafter]
    rfl

/-- C8, amended, at concrete inputs: both responses hold an eligible item
while an overlapping probe that finds nothing runs in between; a check whose
own responses hold `slotA` only while an overlapping probe records `slotB`
before the read; and the scenario of an empty first response and `slotB`
(count 2) in the second with nothing overlapping. -/
theorem C8_reported_slot_witness :
    (∃ r1 r2, probeA = okProbe r1 probeA.now ∧ probeB = okProbe r2 probeB.now ∧
      (some slotB : Option AvailabilityItem) ≠ none ∧
      (checkAvailabilityOverlapped sampleParse sampleChecker
        probeA [probeEmpty] probeB []).1.lastAvailableSlot = some slotB ∧
      (some slotB : Option AvailabilityItem) =
        (lastRecorded sampleParse []).or ((firstEligible sampleParse probeB.now r2).or
          ((lastRecorded sampleParse [probeEmpty]).or
            (firstEligible sampleParse probeA.now r1))) ∧
      ((∀ q ∈ [probeEmpty] ++ [], probeSlot sampleParse q = none) →
        (some slotB : Option AvailabilityItem) =
          (match firstEligible sampleParse probeB.now r2 with
            | some item => some item
            | none => firstEligible sampleParse probeA.now r1))) ∧
    (∃ r1 r2, probeA = okProbe r1 probeA.now ∧ probeEmpty = okProbe r2 probeEmpty.now ∧
      (some slotB : Option AvailabilityItem) ≠ none ∧
      (checkAvailabilityOverlapped sampleParse sampleChecker
        probeA [] probeEmpty [probeB]).1.lastAvailableSlot = some slotB ∧
      (some slotB : Option AvailabilityItem) =
        (lastRecorded sampleParse [probeB]).or
          ((firstEligible sampleParse probeEmpty.now r2).or
            ((lastRecorded sampleParse []).or (firstEligible sampleParse probeA.now r1))) ∧
      ((∀ q ∈ [] ++ [probeB], probeSlot sampleParse q = none) →
        (some slotB : Option AvailabilityItem) =
          (match firstEligible sampleParse probeEmpty.now r2 with
            | some item => some item
            | none => firstEligible sampleParse probeA.now r1))) ∧
    checkAvailabilityOverlapped sampleParse sampleChecker probeEmpty [] probeB [] =
      ({ sampleChecker with lastAvailableSlot := some slotB },
        .ok { Available := true, AvailableSlot := some slotB }) :=
  ⟨(C8_reported_slot sampleParse sampleChecker probeA probeB [probeEmpty] []).2.1
      { Available := true, AvailableSlot := some slotB } rfl rfl,
    (C8_reported_slot sampleParse sampleChecker probeA probeEmpty [] [probeB]).2.1
      { Available := true, AvailableSlot := some slotB } rfl rfl,
    (C8_reported_slot sampleParse sampleChecker probeEmpty probeB [] []).2.2
      (oneStaff []) slotB (sampleNow + 2 * hour) rfl rfl rfl (by decide) (by decide)
      (by decide) (by decide) (by intro q hq; cases hq)⟩

/-- C3, as stated, fails: when the first probe finds a slot and the second is
answered with HTTP 500, the combined check fails and yet `lastAvailableSlot`
has changed. -/
theorem C3_counterexample :
    (checkAvailability sampleParse sampleChecker probeA probe500).2 =
      .error (.second (.badStatus 500)) ∧
    sampleChecker.lastAvailableSlot = none ∧
    (checkTick sampleParse sampleChecker probeA probe500).1.lastAvailableSlot = some slotA :=
  ⟨rfl, rfl, rfl⟩

/-- C3, amended: a check tick whose combined check fails sends no message and
leaves `wasAvailable` and both subscriber sets unchanged.  When the first probe
is the one that fails, the whole checker is unchanged.  When the first probe
is answered with a decoded response and the second fails, `lastAvailableSlot`
becomes the first eligible item of the first response if there is one, and is
unchanged otherwise. -/
theorem C3_failed_check_tick (parse : String → Option Int) (ac : AppointmentChecker)
    (p1 p2 : Probe) (err : CheckError)
    (h : (checkAvailability parse ac p1 p2).2 = .error err) :
    (checkTick parse ac p1 p2).2 = 0 ∧
    (checkTick parse ac p1 p2).1.wasAvailable = ac.wasAvailable ∧
    (checkTick parse ac p1 p2).1.users = ac.users ∧
    (checkTick parse ac p1 p2).1.autoCheckUsers = ac.autoCheckUsers ∧
    (∀ e, probeResult parse p1 = .error e → (checkTick parse ac p1 p2).1 = ac) ∧
    (∀ r1, p1 = okProbe r1 p1.now →
      (checkTick parse ac p1 p2).1 =
        { ac with lastAvailableSlot :=
            match firstEligible parse p1.now r1 with
            | some item => some item
            | none => ac.lastAvailableSlot }) := by
  rw [checkTick_of_error parse ac p1 p2 err h]
  rw [checkAvailability_eq] at h ⊢
  refine ⟨rfl, ?_, ?_, ?_, ?_, ?_⟩
  · cases h1 : probeResult parse p1 with
    | error e1 => rfl
    | ok b1 => cases h2 : probeResult parse p2 <;> rfl
  · cases h1 : probeResult parse p1 with
    | error e1 => rfl
    | ok b1 => cases h2 : probeResult parse p2 <;> rfl
  · cases h1 : probeResult parse p1 with
    | error e1 => rfl
    | ok b1 => cases h2 : probeResult parse p2 <;> rfl
  · intro e he
    rw [he]
  · intro r1 hp1
    have h1 : probeResult parse p1 = .ok (firstEligible parse p1.now r1).isSome := by
      conv_lhs => rw [hp1]
      exact probeResult_okProbe parse r1 p1.now
    have hs1 : probeSlot parse p1 = firstEligible parse p1.now r1 := by
      conv_lhs => rw [hp1]
      exact probeSlot_okProbe parse r1 p1.now
    rw [h1] at h ⊢
    cases h2 : probeResult parse p2 with
    | ok b2 => rw [h2] at h; simp at h
    | error e2 =>
      simp only [hs1]
      cases firstEligible parse p1.now r1 <;> rfl

/-- C3, amended, at concrete inputs: a first probe answered with HTTP 500, and
a first probe that finds `slotA` followed by a second answered with HTTP 500. -/
theorem C3_failed_check_tick_witness :
    (checkTick sampleParse sampleChecker probe500 probeA).2 = 0 ∧
    (checkTick sampleParse sampleChecker probe500 probeA).1 = sampleChecker ∧
    (checkTick sampleParse sampleChecker probeA probe500).1 =
      { sampleChecker with lastAvailableSlot :=
          match firstEligible sampleParse probeA.now (oneStaff [slotA]) with
          | some item => some item
          | none => sampleChecker.lastAvailableSlot } :=
  ⟨(C3_failed_check_tick sampleParse sampleChecker probe500 probeA
      (.first (.badStatus 500)) rfl).1,
    (C3_failed_check_tick sampleParse sampleChecker probe500 probeA
      (.first (.badStatus 500)) rfl).2.2.2.2.1 (.badStatus 500) rfl,
    (C3_failed_check_tick sampleParse sampleChecker probeA probe500
      (.second (.badStatus 500)) rfl).2.2.2.2.2 (oneStaff [slotA]) rfl⟩

/-- C1: on a check tick whose combined check succeeds, the messages sent are
the change notification to every known subscriber when the result's Available
differs from the stored `wasAvailable`, and nothing at all otherwise: a known
subscriber gets the change notification if and only if the two differ, and
nobody else gets anything.  Hence, in a run of check ticks that starts with
this one and in which every tick succeeds with the same boolean, every tick
after the first sends no message. -/
theorem C1_change_notification_iff (parse : String → Option Int) (ac : AppointmentChecker)
    (p1 p2 : Probe) (result : AvailabilityResult)
    (h : (checkAvailability parse ac p1 p2).2 = .ok result) :
    (checkTick parse ac p1 p2).2 =
      (if result.Available ≠ ac.wasAvailable then
        sendAll ac.users (formatAvailabilityMessage result false)
      else 0) ∧
    (∀ id ∈ ac.users,
      (⟨id, formatAvailabilityMessage result false⟩ ∈ (checkTick parse ac p1 p2).2 ↔
        result.Available ≠ ac.wasAvailable) ∧
      (id ∈ recipients (checkTick parse ac p1 p2).2 ↔ result.Available ≠ ac.wasAvailable)) ∧
    (∀ id, id ∉ ac.users → id ∉ recipients (checkTick parse ac p1 p2).2) ∧
    (∀ rest : List (Probe × Probe),
      (∀ e ∈ checkTickLog parse ac ((p1, p2) :: rest), e.1 = some result.Available) →
      ∀ e ∈ checkTickLog parse (checkTick parse ac p1 p2).1 rest, e.2 = 0) := by
  have hstep := sent_checkTick parse ac p1 p2 result h
  have hsent : (checkTick parse ac p1 p2).2 =
      (if result.Available ≠ ac.wasAvailable then
        sendAll ac.users (formatAvailabilityMessage result false)
      else 0) := by
    rw [hstep]
    by_cases hd : result.Available ≠ ac.wasAvailable
    · rw [if_pos hd, if_pos hd]
    · rw [if_neg hd, if_neg hd]
  have hrec : recipients (checkTick parse ac p1 p2).2 =
      if result.Available ≠ ac.wasAvailable then ac.users else ∅ := by
    rw [hsent]
    by_cases hd : result.Available ≠ ac.wasAvailable
    · rw [if_pos hd, if_pos hd, recipients_sendAll]
    · rw [if_neg hd, if_neg hd, recipients_zero]
  refine ⟨hsent, ?_, ?_, ?_⟩
  · intro id hid
    rw [hrec, hsent]
    by_cases hd : result.Available ≠ ac.wasAvailable
    · rw [if_pos hd, if_pos hd]
      exact ⟨⟨fun _ => hd, fun _ => (mem_sendAll _ _ _).2 ⟨hid, rfl⟩⟩,
        ⟨fun _ => hd, fun _ => hid⟩⟩
    · simp only [if_neg hd, Multiset.not_mem_zero, Finset.not_mem_empty]
      exact ⟨⟨False.elim, fun h' => hd h'⟩, ⟨False.elim, fun h' => hd h'⟩⟩
  · intro id hid
    rw [hrec]
    by_cases hd : result.Available ≠ ac.wasAvailable
    · rw [if_pos hd]; exact hid
    · rw [if_neg hd]; exact Finset.not_mem_empty id
  · intro rest hall
    have hw : (checkTick parse ac p1 p2).1.wasAvailable = result.Available := by
      rw [hstep]
      by_cases hd : result.Available ≠ ac.wasAvailable
      · rw [if_pos hd]
      · rw [if_neg hd, (checkAvailability_frame parse ac p1 p2).2.2]
        exact (not_not.1 hd).symm
    refine checkTickLog_quiet parse result.Available rest _ hw ?_
    intro e he
    refine hall e ?_
    unfold checkTickLog
    exact List.mem_cons_of_mem _ he

/-- C1 at concrete inputs: from `sampleChecker` (stored `wasAvailable` false,
known subscribers 1 and 2) a tick that finds `slotA` notifies both, and two
further ticks with the same result send nothing. -/
theorem C1_change_notification_iff_witness :
    (checkTick sampleParse sampleChecker probeA probeEmpty).2 =
      (if true ≠ sampleChecker.wasAvailable then
        sendAll sampleChecker.users (formatAvailabilityMessage ⟨true, some slotA⟩ false)
      else 0) ∧
    (∀ e ∈ checkTickLog sampleParse (checkTick sampleParse sampleChecker probeA probeEmpty).1
        [(probeA, probeEmpty), (probeEmpty, probeA)], e.2 = 0) :=
  ⟨(C1_change_notification_iff sampleParse sampleChecker probeA probeEmpty
      ⟨true, some slotA⟩ rfl).1,
    (C1_change_notification_iff sampleParse sampleChecker probeA probeEmpty
      ⟨true, some slotA⟩ rfl).2.2.2 [(probeA, probeEmpty), (probeEmpty, probeA)]
      (by
        intro e he
        simp only [checkTickLog, List.mem_cons, List.mem_singleton, List.not_mem_nil,
          or_false] at he
        rcases he with rfl | rfl | rfl <;> rfl)⟩

/-- C7, as stated, fails: on a digest tick whose result differs from the
stored `wasAvailable`, subscriber 2, who is known but not a digest subscriber,
receives a message. -/
theorem C7_counterexample :
    (checkAvailability sampleParse sampleChecker probeA probeEmpty).2 =
      .ok ⟨true, some slotA⟩ ∧
    (2 : Int) ∉ sampleChecker.autoCheckUsers ∧
    (⟨2, .availableWithSlot slotA⟩ : Sent) ∈
      (autoCheckTick sampleParse sampleChecker probeA probeEmpty).2 ∧
    recipients (autoCheckTick sampleParse sampleChecker probeA probeEmpty).2 ≠
      sampleChecker.autoCheckUsers := by
  have hstep := sent_autoCheckTick sampleParse sampleChecker probeA probeEmpty
    ⟨true, some slotA⟩ rfl
  have hmem : (⟨2, .availableWithSlot slotA⟩ : Sent) ∈
      (autoCheckTick sampleParse sampleChecker probeA probeEmpty).2 := by
    rw [hstep]
    refine Multiset.mem_add.2 (Or.inl ?_)
    have hd : (true ≠ sampleChecker.wasAvailable) := by decide
    rw [if_pos hd]
    exact (mem_sendAll _ _ _).2 ⟨by decide, rfl⟩
  refine ⟨rfl, by decide, hmem, ?_⟩
  intro heq
  have h2 : (2 : Int) ∈ recipients (autoCheckTick sampleParse sampleChecker probeA probeEmpty).2 :=
    (mem_recipients _ _).2 ⟨_, hmem, rfl⟩
  rw [heq] at h2
  exact absurd h2 (by decide)

/-- C7, amended: a successful digest tick sends the digest message to every
digest subscriber and, when the probed result differs from the stored
`wasAvailable`, also the change notification to every known subscriber.  The
ids that receive a message are the digest set together with, in that case,
the known set; when the result equals the stored `wasAvailable` they are
exactly the digest set.  The tick leaves `wasAvailable` unchanged. -/
theorem C7_digest_tick (parse : String → Option Int) (ac : AppointmentChecker)
    (p1 p2 : Probe) (result : AvailabilityResult)
    (h : (checkAvailability parse ac p1 p2).2 = .ok result) :
    (autoCheckTick parse ac p1 p2).2 =
      (if result.Available ≠ ac.wasAvailable then
          sendAll ac.users (formatAvailabilityMessage result false)
        else 0) +
      sendAll ac.autoCheckUsers (formatAvailabilityMessage result true) ∧
    (∀ id ∈ ac.autoCheckUsers,
      (⟨id, formatAvailabilityMessage result true⟩ : Sent) ∈ (autoCheckTick parse ac p1 p2).2) ∧
    recipients (autoCheckTick parse ac p1 p2).2 =
      (if result.Available ≠ ac.wasAvailable then ac.users ∪ ac.autoCheckUsers
        else ac.autoCheckUsers) ∧
    (result.Available = ac.wasAvailable →
      recipients (autoCheckTick parse ac p1 p2).2 = ac.autoCheckUsers) ∧
    (autoCheckTick parse ac p1 p2).1.wasAvailable = ac.wasAvailable := by
  have hstep := sent_autoCheckTick parse ac p1 p2 result h
  have hrec : recipients (autoCheckTick parse ac p1 p2).2 =
      (if result.Available ≠ ac.wasAvailable then ac.users ∪ ac.autoCheckUsers
        else ac.autoCheckUsers) := by
    rw [hstep]
    simp only
    rw [recipients_add, recipients_sendAll]
    by_cases hd : result.Available ≠ ac.wasAvailable
    · rw [if_pos hd, if_pos hd, recipients_sendAll]
    · rw [if_neg hd, if_neg hd, recipients_zero, Finset.empty_union]
  refine ⟨by rw [hstep], ?_, hrec, ?_, ?_⟩
  · intro id hid
    rw [hstep]
    exact Multiset.mem_add.2 (Or.inr ((mem_sendAll _ _ _).2 ⟨hid, rfl⟩))
  · intro hsame
    rw [hrec, if_neg (not_not.2 hsame)]
  · rw [hstep]
    exact (checkAvailability_frame parse ac p1 p2).2.2

/-- C7, amended, at concrete inputs: a digest tick from `sampleChecker` that
finds `slotA`. -/
theorem C7_digest_tick_witness :
    recipients (autoCheckTick sampleParse sampleChecker probeA probeEmpty).2 =
      (if true ≠ sampleChecker.wasAvailable then
        sampleChecker.users ∪ sampleChecker.autoCheckUsers
        else sampleChecker.autoCheckUsers) ∧
    (autoCheckTick sampleParse sampleChecker probeA probeEmpty).1.wasAvailable =
      sampleChecker.wasAvailable :=
  ⟨(C7_digest_tick sampleParse sampleChecker probeA probeEmpty ⟨true, some slotA⟩ rfl).2.2.1,
    (C7_digest_tick sampleParse sampleChecker probeA probeEmpty ⟨true, some slotA⟩ rfl).2.2.2.2⟩

/-- C4: from the checker `NewAppointmentChecker` builds, after any finite
sequence of events (inbound updates of any kind from any chat, and ticks), the
digest set `autoCheckUsers` is a subset of the known set `users`. -/
theorem C4_digest_subset_known (parse : String → Option Int) (events : List Event) :
    (run parse NewAppointmentChecker events).autoCheckUsers ⊆
      (run parse NewAppointmentChecker events).users := by
  have key : ∀ (events : List Event) (ac : AppointmentChecker),
      ac.autoCheckUsers ⊆ ac.users →
      (run parse ac events).autoCheckUsers ⊆ (run parse ac events).users := by
    intro events
    induction events with
    | nil => intro ac h; exact h
    | cons e rest ih =>
      intro ac h
      exact ih _ (step_subset parse ac e h)
  exact key events NewAppointmentChecker (Finset.empty_subset _)

/-- C9: after an enable-digest command from `id`, `id` is in the known set and
in the digest set; after a following disable-digest command from `id`, `id` is
not in the digest set and the known set is what it was after the enable.
Neither command changes whether any other id is in either set.  From the empty
registry, enable-digest from 42 gives known = {42} and digest = {42}, and
disable-digest from 42 then gives digest = {} and known = {42}. -/
theorem C9_enable_disable_digest (parse : String → Option Int) (ac : AppointmentChecker)
    (enable disable : Message) (p1 p2 q1 q2 : Probe)
    (he : commandOf enable = "autostart") (hd : commandOf disable = "autostop")
    (hid : disable.chatID = enable.chatID) :
    enable.chatID ∈ (handleCommand parse ac ⟨some enable⟩ p1 p2).1.users ∧
    enable.chatID ∈ (handleCommand parse ac ⟨some enable⟩ p1 p2).1.autoCheckUsers ∧
    enable.chatID ∉ (handleCommand parse (handleCommand parse ac ⟨some enable⟩ p1 p2).1
      ⟨some disable⟩ q1 q2).1.autoCheckUsers ∧
    (handleCommand parse (handleCommand parse ac ⟨some enable⟩ p1 p2).1
      ⟨some disable⟩ q1 q2).1.users = (handleCommand parse ac ⟨some enable⟩ p1 p2).1.users ∧
    (∀ other, other ≠ enable.chatID →
      (other ∈ (handleCommand parse ac ⟨some enable⟩ p1 p2).1.users ↔ other ∈ ac.users) ∧
      (other ∈ (handleCommand parse ac ⟨some enable⟩ p1 p2).1.autoCheckUsers ↔
        other ∈ ac.autoCheckUsers) ∧
      (other ∈ (handleCommand parse (handleCommand parse ac ⟨some enable⟩ p1 p2).1
        ⟨some disable⟩ q1 q2).1.users ↔ other ∈ ac.users) ∧
      (other ∈ (handleCommand parse (handleCommand parse ac ⟨some enable⟩ p1 p2).1
        ⟨some disable⟩ q1 q2).1.autoCheckUsers ↔ other ∈ ac.autoCheckUsers)) ∧
    (handleCommand parse NewAppointmentChecker (commandUpdate 42 "autostart") p1 p2).1.users =
      {42} ∧
    (handleCommand parse NewAppointmentChecker
      (commandUpdate 42 "autostart") p1 p2).1.autoCheckUsers = {42} ∧
    (handleCommand parse
      (handleCommand parse NewAppointmentChecker (commandUpdate 42 "autostart") p1 p2).1
      (commandUpdate 42 "autostop") q1 q2).1.autoCheckUsers = ∅ ∧
    (handleCommand parse
      (handleCommand parse NewAppointmentChecker (commandUpdate 42 "autostart") p1 p2).1
      (commandUpdate 42 "autostop") q1 q2).1.users = {42} := by
  obtain ⟨hu1, ha1, -, -, -⟩ := handleCommand_state parse ac enable p1 p2
  obtain ⟨hu2, ha2, -, -, -⟩ :=
    handleCommand_state parse (handleCommand parse ac ⟨some enable⟩ p1 p2).1 disable q1 q2
  have hd' : commandOf disable ≠ "autostart" := by simp [hd]
  rw [if_pos he] at ha1
  rw [if_neg hd', if_pos hd, ha1, hid] at ha2
  rw [hu1, hid] at hu2
  refine ⟨?_, ?_, ?_, ?_, ?_, ?_, ?_, ?_, ?_⟩
  · rw [hu1]; exact Finset.mem_insert_self _ _
  · rw [ha1]; exact Finset.mem_insert_self _ _
  · rw [ha2]; exact Finset.not_mem_erase _ _
  · rw [hu2, hu1]
    exact Finset.insert_eq_of_mem (Finset.mem_insert_self _ _)
  · intro other hne
    rw [hu1, ha1, hu2, ha2]
    simp [hne]
  · rfl
  · rfl
  · have hs1 := (handleCommand_state parse NewAppointmentChecker
      ⟨42, "", true, "autostart"⟩ p1 p2).2.1
    have hs2 := (handleCommand_state parse
      (handleCommand parse NewAppointmentChecker
        ⟨some ⟨42, "", true, "autostart"⟩⟩ p1 p2).1
      ⟨42, "", true, "autostop"⟩ q1 q2).2.1
    unfold commandUpdate
    rw [hs2, hs1]
    simp [commandOf, NewAppointmentChecker]
  · have hs1 := (handleCommand_state parse NewAppointmentChecker
      ⟨42, "", true, "autostart"⟩ p1 p2).1
    have hs2 := (handleCommand_state parse
      (handleCommand parse NewAppointmentChecker
        ⟨some ⟨42, "", true, "autostart"⟩⟩ p1 p2).1
      ⟨42, "", true, "autostop"⟩ q1 q2).1
    unfold commandUpdate
    rw [hs2, hs1]
    simp [NewAppointmentChecker]

/-- C9 at concrete inputs: the enable-digest and disable-digest buttons pressed
in chat 42, on a checker that already knows subscribers 1 and 2. -/
theorem C9_enable_disable_digest_witness :
    (42 : Int) ∈ (handleCommand sampleParse sampleChecker
      ⟨some ⟨42, "⏰ Enable Status Updates", false, ""⟩⟩ probeEmpty probeEmpty).1.autoCheckUsers ∧
    (42 : Int) ∉ (handleCommand sampleParse (handleCommand sampleParse sampleChecker
      ⟨some ⟨42, "⏰ Enable Status Updates", false, ""⟩⟩ probeEmpty probeEmpty).1
      ⟨some ⟨42, "⏳ Disable Status Updates", false, ""⟩⟩
      probeEmpty probeEmpty).1.autoCheckUsers :=
  ⟨(C9_enable_disable_digest sampleParse sampleChecker
      ⟨42, "⏰ Enable Status Updates", false, ""⟩ ⟨42, "⏳ Disable Status Updates", false, ""⟩
      probeEmpty probeEmpty probeEmpty probeEmpty (by decide) (by decide) rfl).2.1,
    (C9_enable_disable_digest sampleParse sampleChecker
      ⟨42, "⏰ Enable Status Updates", false, ""⟩ ⟨42, "⏳ Disable Status Updates", false, ""⟩
      probeEmpty probeEmpty probeEmpty probeEmpty (by decide) (by decide) rfl).2.2.1⟩

/-- C2: starting from the checker `NewAppointmentChecker` builds
(`wasAvailable` false), after any finite sequence of check ticks the stored
`wasAvailable` is `b1 || b2` of the last successful tick outcome, and false
when there is none; a failed tick leaves `wasAvailable` as it was.  A tick
outcome is a failure exactly when the combined check returns an error, and a
success with booleans `b1`, `b2` makes the combined check return
`b1 || b2`. -/
theorem C2_wasAvailable_last_success (parse : String → Option Int)
    (ticks : List (Probe × Probe)) :
    (run parse NewAppointmentChecker (checkTicks ticks)).wasAvailable =
      lastSuccessfulOr false (ticks.map (tickOutcome parse)) ∧
    (∀ (ac : AppointmentChecker) (p1 p2 : Probe),
      (tickOutcome parse (p1, p2) = none ↔
        ∃ err, (checkAvailability parse ac p1 p2).2 = .error err) ∧
      (tickOutcome parse (p1, p2) = none →
        (checkTick parse ac p1 p2).1.wasAvailable = ac.wasAvailable) ∧
      (∀ b1 b2, tickOutcome parse (p1, p2) = some (b1, b2) →
        (∃ slot, (checkAvailability parse ac p1 p2).2 = .ok ⟨b1 || b2, slot⟩) ∧
        (checkTick parse ac p1 p2).1.wasAvailable = (b1 || b2))) := by
  refine ⟨run_checkTicks_wasAvailable parse ticks NewAppointmentChecker, ?_⟩
  intro ac p1 p2
  refine ⟨tickOutcome_eq_none_iff parse ac p1 p2, ?_, ?_⟩
  · intro ho
    rw [checkTick_wasAvailable, ho]
  · intro b1 b2 ho
    refine ⟨tickOutcome_eq_some parse ac p1 p2 b1 b2 ho, ?_⟩
    rw [checkTick_wasAvailable, ho]

/-- C2 at concrete inputs: a failed tick on `sampleChecker`, and a successful
one that finds `slotA` through its first probe. -/
theorem C2_wasAvailable_last_success_witness :
    (checkTick sampleParse sampleChecker probe500 probeA).1.wasAvailable =
      sampleChecker.wasAvailable ∧
    (checkTick sampleParse sampleChecker probeA probeEmpty).1.wasAvailable = (true || false) :=
  ⟨((C2_wasAvailable_last_success sampleParse []).2 sampleChecker probe500 probeA).2.1 rfl,
    (((C2_wasAvailable_last_success sampleParse []).2 sampleChecker probeA probeEmpty).2.2
      true false rfl).2⟩

/-- C10: in every state reachable from the checker `NewAppointmentChecker`
builds by any finite sequence of check ticks, digest ticks and inbound updates,
`wasAvailable = true` implies that `lastAvailableSlot` is non-empty, and no
further event takes `lastAvailableSlot` from non-empty to empty; a check tick
that takes `wasAvailable` from true to false leaves `lastAvailableSlot` as it
was. -/
theorem C10_slot_retained (parse : String → Option Int) (events : List Event) :
    ((run parse NewAppointmentChecker events).wasAvailable = true →
      (run parse NewAppointmentChecker events).lastAvailableSlot ≠ none) ∧
    (∀ e : Event, (run parse NewAppointmentChecker events).lastAvailableSlot ≠ none →
      (step parse (run parse NewAppointmentChecker events) e).1.lastAvailableSlot ≠ none) ∧
    (∀ p1 p2 : Probe, (run parse NewAppointmentChecker events).wasAvailable = true →
      (checkTick parse (run parse NewAppointmentChecker events) p1 p2).1.wasAvailable = false →
      (checkTick parse (run parse NewAppointmentChecker events) p1 p2).1.lastAvailableSlot =
        (run parse NewAppointmentChecker events).lastAvailableSlot) := by
  refine ⟨?_, ?_, ?_⟩
  · exact run_available_slot parse events NewAppointmentChecker (by intro h; cases h)
  · intro e h
    exact step_slot_ne_none parse _ e h
  · intro p1 p2 hw hf
    generalize run parse NewAppointmentChecker events = ac at hw hf ⊢
    rw [checkTick_wasAvailable] at hf
    cases ho : tickOutcome parse (p1, p2) with
    | none => rw [ho] at hf; simp only at hf; rw [hw] at hf; cases hf
    | some b =>
      obtain ⟨b1, b2⟩ := b
      rw [ho] at hf
      simp only [Bool.or_eq_false_iff] at hf
      obtain ⟨rfl, rfl⟩ := hf
      obtain ⟨slot, hres⟩ := tickOutcome_eq_some parse ac p1 p2 false false ho
      rw [sent_checkTick parse ac p1 p2 _ hres]
      have hd : (⟨false || false, slot⟩ : AvailabilityResult).Available ≠ ac.wasAvailable := by
        rw [hw]; simp
      rw [if_pos hd]
      simp only
      unfold tickOutcome at ho
      simp only at ho
      rw [checkAvailability_eq]
      cases h1 : probeResult parse p1 with
      | error e1 => simp [h1] at ho
      | ok c1 =>
        cases h2 : probeResult parse p2 with
        | error e2 => simp [h1, h2] at ho
        | ok c2 =>
          rw [h1, h2] at ho
          simp only [Option.some.injEq, Prod.mk.injEq] at ho
          obtain ⟨rfl, rfl⟩ := ho
          have hs1 := probeSlot_isSome_of_ok parse p1 false h1
          have hs2 := probeSlot_isSome_of_ok parse p2 false h2
          simp only
          cases hp1 : probeSlot parse p1 with
          | some item => rw [hp1] at hs1; simp at hs1
          | none =>
            cases hp2 : probeSlot parse p2 with
            | some item => rw [hp2] at hs2; simp at hs2
            | none => rfl

/-- C10 at concrete inputs: a check tick finds `slotA`, an ad-hoc check finds
nothing, and a further check tick finds nothing, so availability goes back to
false while the slot stays. -/
theorem C10_slot_retained_witness :
    (run sampleParse NewAppointmentChecker
      [.checkTick probeA probeEmpty]).lastAvailableSlot ≠ none ∧
    (step sampleParse (run sampleParse NewAppointmentChecker
      [.checkTick probeA probeEmpty, .update (commandUpdate 7 "check") probeEmpty probeEmpty])
      (.checkTick probeEmpty probeEmpty)).1.lastAvailableSlot ≠ none ∧
    (checkTick sampleParse (run sampleParse NewAppointmentChecker
      [.checkTick probeA probeEmpty]) probeEmpty probeEmpty).1.lastAvailableSlot =
      (run sampleParse NewAppointmentChecker [.checkTick probeA probeEmpty]).lastAvailableSlot :=
  ⟨(C10_slot_retained sampleParse [.checkTick probeA probeEmpty]).1 rfl,
    (C10_slot_retained sampleParse
      [.checkTick probeA probeEmpty,
        .update (commandUpdate 7 "check") probeEmpty probeEmpty]).2.1
      (.checkTick probeEmpty probeEmpty) (by decide),
    (C10_slot_retained sampleParse [.checkTick probeA probeEmpty]).2.2
      probeEmpty probeEmpty rfl rfl⟩

/-- C5, as stated, fails: an ad-hoc check from chat 7 that finds `slotA`
changes `lastAvailableSlot` from empty to `slotA`. -/
theorem C5_counterexample :
    commandOf ⟨7, "🔍 Check Availability", false, ""⟩ = "check" ∧
    sampleChecker.lastAvailableSlot = none ∧
    (handleCommand sampleParse sampleChecker ⟨some ⟨7, "🔍 Check Availability", false, ""⟩⟩
      probeA probeEmpty).1.lastAvailableSlot = some slotA :=
  ⟨by decide, rfl, by decide⟩

/-- C5, amended: handling an ad-hoc check command from `id` leaves
`wasAvailable` unchanged and sends messages to `id` only, also when the ad-hoc
result differs from the stored state.  `lastAvailableSlot` is unchanged when
the first probe fails; when the first probe is answered with a decoded
response and the second fails, it becomes the first eligible item of the
first response if there is one; when both are answered with a decoded
response, it becomes the first eligible item of the second response if there
is one, else that of the first if there is one; it is unchanged when no
consulted response holds an eligible item. -/
theorem C5_adhoc_check (parse : String → Option Int) (ac : AppointmentChecker)
    (m : Message) (p1 p2 : Probe) (h : commandOf m = "check") :
    (handleCommand parse ac ⟨some m⟩ p1 p2).1.wasAvailable = ac.wasAvailable ∧
    (∀ s ∈ (handleCommand parse ac ⟨some m⟩ p1 p2).2, s.chatID = m.chatID) ∧
    recipients (handleCommand parse ac ⟨some m⟩ p1 p2).2 = {m.chatID} ∧
    (∀ e, probeResult parse p1 = .error e →
      (handleCommand parse ac ⟨some m⟩ p1 p2).1.lastAvailableSlot = ac.lastAvailableSlot) ∧
    (∀ r1 e, p1 = okProbe r1 p1.now → probeResult parse p2 = .error e →
      (handleCommand parse ac ⟨some m⟩ p1 p2).1.lastAvailableSlot =
        (firstEligible parse p1.now r1).or ac.lastAvailableSlot) ∧
    (∀ r1 r2, p1 = okProbe r1 p1.now → p2 = okProbe r2 p2.now →
      (handleCommand parse ac ⟨some m⟩ p1 p2).1.lastAvailableSlot =
        (firstEligible parse p2.now r2).or
          ((firstEligible parse p1.now r1).or ac.lastAvailableSlot)) := by
  obtain ⟨-, -, hw, hs, hsent⟩ := handleCommand_state parse ac m p1 p2
  rw [if_pos h, checkAvailability_eq] at hs
  simp only at hs
  refine ⟨hw, hsent, ?_, ?_, ?_, ?_⟩
  · ext id
    rw [mem_recipients, Finset.mem_singleton]
    constructor
    · rintro ⟨s, hs', rfl⟩
      exact hsent s hs'
    · rintro rfl
      refine ⟨⟨m.chatID, .checking⟩, ?_, rfl⟩
      unfold handleCommand
      have h1 : ¬ (commandOf m = "start" ∨ commandOf m = "help") := by simp [h]
      have h2 : ¬ commandOf m = "autostart" := by simp [h]
      have h3 : ¬ commandOf m = "autostop" := by simp [h]
      simp only [if_neg h1, if_neg h2, if_neg h3, if_pos h]
      cases hc : checkAvailability parse { ac with users := insert m.chatID ac.users }
          p1 p2 with
      | mk ac1 res => cases res <;> simp
  · intro e he
    rw [hs, he]
  · intro r1 e hp1 he
    have h1 : probeResult parse p1 = .ok (firstEligible parse p1.now r1).isSome := by
      conv_lhs => rw [hp1]
      exact probeResult_okProbe parse r1 p1.now
    have hs1 : probeSlot parse p1 = firstEligible parse p1.now r1 := by
      conv_lhs => rw [hp1]
      exact probeSlot_okProbe parse r1 p1.now
    rw [hs, h1, he, hs1]
  · intro r1 r2 hp1 hp2
    have h1 : probeResult parse p1 = .ok (firstEligible parse p1.now r1).isSome := by
      conv_lhs => rw [hp1]
      exact probeResult_okProbe parse r1 p1.now
    have hs1 : probeSlot parse p1 = firstEligible parse p1.now r1 := by
      conv_lhs => rw [hp1]
      exact probeSlot_okProbe parse r1 p1.now
    have h2 : probeResult parse p2 = .ok (firstEligible parse p2.now r2).isSome := by
      conv_lhs => rw [hp2]
      exact probeResult_okProbe parse r2 p2.now
    have hs2 : probeSlot parse p2 = firstEligible parse p2.now r2 := by
      conv_lhs => rw [hp2]
      exact probeSlot_okProbe parse r2 p2.now
    rw [hs, h1, h2, hs1, hs2]

/-- C5, amended, at concrete inputs: the check button pressed in chat 7 while
the first probe finds `slotA` and the stored `wasAvailable` is false. -/
theorem C5_adhoc_check_witness :
    (handleCommand sampleParse sampleChecker ⟨some ⟨7, "🔍 Check Availability", false, ""⟩⟩
      probeA probeEmpty).1.wasAvailable = sampleChecker.wasAvailable ∧
    recipients (handleCommand sampleParse sampleChecker
      ⟨some ⟨7, "🔍 Check Availability", false, ""⟩⟩ probeA probeEmpty).2 = {7} ∧
    (handleCommand sampleParse sampleChecker ⟨some ⟨7, "🔍 Check Availability", false, ""⟩⟩
      probeA probeEmpty).1.lastAvailableSlot =
      (firstEligible sampleParse probeEmpty.now (oneStaff [])).or
        ((firstEligible sampleParse probeA.now (oneStaff [slotA])).or
          sampleChecker.lastAvailableSlot) :=
  ⟨(C5_adhoc_check sampleParse sampleChecker ⟨7, "🔍 Check Availability", false, ""⟩
      probeA probeEmpty (by decide)).1,
    (C5_adhoc_check sampleParse sampleChecker ⟨7, "🔍 Check Availability", false, ""⟩
      probeA probeEmpty (by decide)).2.2.1,
    (C5_adhoc_check sampleParse sampleChecker ⟨7, "🔍 Check Availability", false, ""⟩
      probeA probeEmpty (by decide)).2.2.2.2.2 (oneStaff [slotA]) (oneStaff []) rfl rfl⟩

end AppointmentBot
